import Mathlib

/-!
# Verification of the pump.fun smart token monitor scoring pipeline

A shallow embedding of the core of the repository
(`src/services/bitquery.service.ts` — the current `ScamFilterEngine`,
`src/services/token-processor.service.ts`, and
`src/services/pumpportal-listener.service.ts` together with the SOL price
cache) and proofs about the claims of the specification.

Modelling conventions:
* JavaScript numbers are modelled by `ℚ` (all arithmetic in the embedded
  code is exact on the values that occur; no NaN / Infinity is produced on
  the embedded paths).  Scores and penalties are modelled by `ℤ`: every
  penalty / bonus increment in the source is an integer literal, so the
  running score is always an integer.
* A JavaScript optional number field is `Option ℚ`; the idiom `x || d`
  (falsy fallback: `undefined` and `0` fall through) is `jsNum x d`, and
  `x ?? d` (nullish fallback: only `undefined`/`null` falls through) is
  `Option.getD`.
* Flags and positive signals are interpolated strings in the source.  Each
  distinct template is modelled as a constructor of an inductive type
  carrying the interpolated value(s); `flagText` renders the exact source
  template with `#` in place of the interpolated number (the substring
  patterns that the source matches with `String.includes` never overlap
  the numeric parts, so all `includes` tests are preserved).  `toFixed` /
  `toLocaleString` formatting of the interpolated numbers is dropped.
-/

-- Batteries marks the `Rat` arithmetic operations `@[irreducible]`, which
-- blocks `decide` on concrete rational computations.  Re-enabling their
-- (semireducible) unfolding is sound: it only lets the elaborator perform
-- the same reductions the kernel always could.
set_option allowUnsafeReducibility true
attribute [semireducible] Rat.add Rat.sub Rat.mul Rat.div Rat.inv Rat.ofScientific

/-- JavaScript `v || d` on an optional number: `undefined` and `0` are
falsy and fall through to the default. -/
def jsNum (v : Option ℚ) (d : ℚ) : ℚ :=
  match v with
  | none => d
  | some x => if x = 0 then d else x

/-- JavaScript truthiness of an optional number (`undefined` and `0` are
falsy). -/
def numTruthy (v : Option ℚ) : Bool :=
  match v with
  | none => false
  | some x => decide (x ≠ 0)

/-- JavaScript truthiness of an optional string (`undefined` and the empty
string are falsy). -/
def strTruthy (v : Option String) : Bool :=
  match v with
  | none => false
  | some s => decide (s ≠ "")

/-- JavaScript `Math.round`: round half toward positive infinity. -/
def jsRound (q : ℚ) : ℤ := ⌊q + 1/2⌋

/-- Does the character list `p` occur at the head of `s`? -/
def listStarts : List Char → List Char → Bool
  | _, [] => true
  | [], _ :: _ => false
  | a :: s, b :: p => a == b && listStarts s p

/-- Does the character list `p` occur anywhere inside `s`? -/
def listHasSub : List Char → List Char → Bool
  | [], p => listStarts [] p
  | a :: t, p => listStarts (a :: t) p || listHasSub t p

/-- JavaScript `s.includes(pat)`: substring containment. -/
def strIncludes (s pat : String) : Bool := listHasSub s.data pat.data

/-- ASCII lower-casing of one character (the strings compared by the
source are ASCII, so this models `String.prototype.toLowerCase`). -/
def lowerChar (c : Char) : Char :=
  if 'A' ≤ c ∧ c ≤ 'Z' then Char.ofNat (c.toNat + 32) else c

/-- `s.toLowerCase()` (ASCII). -/
def strLower (s : String) : String := ⟨s.data.map lowerChar⟩

/-- Insert into a sorted list, before the first element that is not
`le`-below the inserted one. -/
def insertLe {α : Type} (le : α → α → Bool) (a : α) : List α → List α
  | [] => [a]
  | b :: l => if le a b then a :: b :: l else b :: insertLe le a l

/-- Stable insertion sort: the model of JavaScript's (stable)
`Array.prototype.sort` with a `≤`-style comparator. -/
def sortByLe {α : Type} (le : α → α → Bool) : List α → List α
  | [] => []
  | a :: l => insertLe le a (sortByLe le l)

/-- Auxiliary for `dedupFirst`: drop elements already seen. -/
def dedupFirstAux (seen : List String) : List String → List String
  | [] => []
  | a :: l =>
    if seen.contains a then dedupFirstAux seen l
    else a :: dedupFirstAux (a :: seen) l

/-- First-occurrence deduplication: the iteration order of the
`Record<string, …>` accumulators in the source (JS object keys enumerate
in insertion order), and the distinct-element count of a JS `Set`. -/
def dedupFirst (l : List String) : List String := dedupFirstAux [] l

/-! ## Data model (from `src/types/token.types.ts` and the fields the
engine reads) -/

/-- `TokenMetadata`. -/
structure TokenMetadata where
  name : String
  symbol : String
  description : String
  creator : String
  image : String
  decimals : ℕ
  supply : String
  twitter : Option String
  telegram : Option String
  website : Option String
deriving DecidableEq, Repr

/-- `PriceData`.  `marketCapSource` / `marketCapConfidence` are not read by
the scoring engine and are omitted. -/
structure PriceData where
  price : ℚ
  volume24h : ℚ
  marketCap : ℚ
  liquidity : ℚ
  trades24h : ℚ
  priceChange24h : ℚ
  buys24h : ℚ
  sells24h : ℚ
  buys1h : Option ℚ
  sells1h : Option ℚ
  buysH1 : Option ℚ
  sellsH1 : Option ℚ
  buys5m : Option ℚ
  sells5m : Option ℚ
  priceChange1h : Option ℚ
  priceChangeH1 : Option ℚ
  priceChange5m : Option ℚ
  pairCreatedAt : Option ℚ
deriving DecidableEq, Repr

/-- `Holder`. -/
structure Holder where
  address : String
  amount : ℚ
  percentage : ℚ
deriving DecidableEq, Repr

/-- `TransactionType`. -/
inductive TransactionType where
  | BUY | SELL | TRANSFER | SWAP
deriving DecidableEq, Repr

/-- `Transaction`. -/
structure Transaction where
  signature : String
  timestamp : ℚ
  type : TransactionType
  source : String
  feePayer : String
  amount : ℚ
  toUserAccount : Option String
  fromUserAccount : Option String
deriving DecidableEq, Repr

/-- `TokenSecurity`.  `lpLockDuration` (days, `Infinity` = burned forever)
is never read by the scoring engine and is omitted. -/
structure TokenSecurity where
  mintAuthorityRevoked : Bool
  freezeAuthorityRevoked : Bool
  lpLocked : Bool
  lpLockPercentage : ℚ
  isRugpullRisk : Bool
  topHoldersAreContracts : Bool
deriving DecidableEq, Repr

/-- `LaunchAnalysis`. -/
structure LaunchAnalysis where
  bundledBuys : ℚ
  sniperCount : ℚ
  firstBuyerHoldings : ℚ
  avgFirstBuySize : ℚ
  creatorBoughtBack : Bool
deriving DecidableEq, Repr

/-- `WalletFundingAnalysis` (fields read by the engine). -/
structure WalletFundingAnalysis where
  clusteredWallets : ℚ
  freshWalletBuyers : ℚ
  suspiciousFundingPattern : Bool
deriving DecidableEq, Repr

/-- `CreatorHistory` (fields read by the engine). -/
structure CreatorHistory where
  tokenCount : ℚ
  recentTokens : List String
  isSerialCreator : Bool
  ruggedTokens : ℚ
deriving DecidableEq, Repr

/-- The input record of `ScamFilterEngine.analyzeToken`. -/
structure TokenData where
  address : String
  metadata : TokenMetadata
  priceData : PriceData
  holders : List Holder
  transactions : List Transaction
  devHoldings : ℚ
  migrationTimestamp : ℚ
  holderCount : Option ℚ
  security : Option TokenSecurity
  launchAnalysis : Option LaunchAnalysis
  walletFunding : Option WalletFundingAnalysis
  creatorHistory : Option CreatorHistory
deriving DecidableEq, Repr

/-- `FilterThresholds` (the engine's configuration after construction).
Field names ending in "Ratio" in the source are rendered with the suffix
"Frac" here. -/
structure FilterThresholds where
  minScore : ℤ
  maxDevHoldings : ℚ
  minHolders : ℚ
  maxTopHolderConc : ℚ
  minUniqueTradersFrac : ℚ
  minTokenAgeHours : ℚ
  minLiquidityFrac : ℚ
  maxPriceVolatility : ℚ
deriving DecidableEq, Repr

/-- The default thresholds installed by the constructor when no override
is supplied. -/
def defaultThresholds : FilterThresholds :=
  { minScore := 60
    maxDevHoldings := 3/20       -- 0.15
    minHolders := 50
    maxTopHolderConc := 3/10     -- 0.30
    minUniqueTradersFrac := 3/5  -- 0.60
    minTokenAgeHours := 1
    minLiquidityFrac := 1/20     -- 0.05
    maxPriceVolatility := 50 }

/-! ## Flags

One constructor per distinct flag template pushed by the engine.  The
interpolated value is carried as the constructor argument. -/

set_option maxHeartbeats 1600000 in
/-- The flag strings produced by the checks of the engine. -/
inductive RiskFlag where
  -- checkWashTrading
  | washTradingWallet (wallet : String)
  | botActivity (wallet : String)
  -- checkHolderDistribution
  | lowHolders (n : ℚ)
  | moderateHolders (n : ℚ)
  | veryHighConcentration (pct : ℚ)
  | highConcentration (pct : ℚ)
  | megaWhale (pct : ℚ)
  | whale (pct : ℚ)
  | veryHighConcentrationFew (n : ℕ) (pct : ℚ)
  -- checkDeveloperHoldings
  | veryHighDevHoldings (pct : ℚ)
  | highDevHoldings (pct : ℚ)
  | moderateDevHoldings (pct : ℚ)
  -- checkVolumeManipulation
  | lowTraderDiversity (unique total : ℕ)
  | volumeManipulationRisk (unique total : ℕ)
  | microBuys (micro buys : ℕ)
  -- checkAirdropScheme
  | airdropDump (n : ℕ)
  | minorAirdropDump (n : ℕ)
  -- checkSocialSignals
  | noSocialLinks
  | noTwitter
  | noWebsite
  | genericDescription
  | possibleImpersonation
  -- checkTokenAge
  | veryNewToken (minutes : ℤ)
  | newToken (minutes : ℤ)
  | recentlyLaunched (hours : ℚ)
  -- checkBuyPressure
  | extremeBuyPressure (pct : ℚ)
  | highBuyPressure (pct : ℚ)
  | dumpInProgress (pct : ℚ)
  | volumeSpike (x : ℚ)
  | extremeVolatility5m (pct : ℚ)
  | highVolatility1h (pct : ℚ)
  -- checkLiquidityHealth
  | dangerouslyLowLiquidity (pct : ℚ)
  | lowLiquidityOfMc (pct : ℚ)
  | moderateLiquidityOfMc (pct : ℚ)
  | suspiciousVolumeLiquidity (x : ℚ)
  | highVolumeLiquidity (x : ℚ)
  | veryLowLiquidity (l : ℚ)
  | lowLiquidityAbs (l : ℚ)
  -- checkSecurity
  | securityDataUnavailable
  | mintNotRevoked
  | freezeNotRevoked
  | lpNotLocked (pct : ℚ)
  | lowLpLock (pct : ℚ)
  | topHoldersContracts
  | highRugpullRisk
  -- checkSnipers
  | bundledLaunch (n : ℚ)
  | bundledBuysDetected (n : ℚ)
  | heavySniperActivity (n : ℚ)
  | sniperActivity (n : ℚ)
  | largeEarlyBuys (q : ℚ)
  | significantEarlyBuys (q : ℚ)
  | creatorBoughtBackFlag
  -- checkWalletFunding
  | coordinatedBuying (n : ℚ)
  | walletClustering (n : ℚ)
  | minorWalletClustering
  | manyFreshWallets (n : ℚ)
  | freshWalletActivity (n : ℚ)
  | suspiciousFunding
  -- checkTradeVelocity
  | extremeTradeVelocity (q : ℚ)
  | highTradeVelocity (q : ℚ)
  | elevatedTradeVelocity (q : ℚ)
  -- checkCreatorHistory
  | serialScammer (n : ℕ)
  | highVolumeCreator (n : ℕ)
  | serialCreatorFlag (n : ℕ)
  | prolificCreator (n : ℚ)
  | multipleTokens (n : ℚ)
  | previousTokens (n : ℚ)
  | failedTokensHistory (n : ℚ)
  -- composite risk flags appended by analyzeToken
  | rugInProgressRisk
  | pumpSetupRisk
  | washTradingRisk
  | coordinatedDumpRisk
  | insiderActivityRisk
deriving Repr

/-- Injective encoding of `RiskFlag` into a tuple (used only to build the
`DecidableEq` instance without the quadratic derived procedure). -/
def RiskFlag.encode : RiskFlag → ℕ × ℚ × ℚ × String × ℕ × ℕ × ℤ
  | .washTradingWallet a => (0, 0, 0, a, 0, 0, 0)
  | .botActivity a => (1, 0, 0, a, 0, 0, 0)
  | .lowHolders a => (2, a, 0, "", 0, 0, 0)
  | .moderateHolders a => (3, a, 0, "", 0, 0, 0)
  | .veryHighConcentration a => (4, a, 0, "", 0, 0, 0)
  | .highConcentration a => (5, a, 0, "", 0, 0, 0)
  | .megaWhale a => (6, a, 0, "", 0, 0, 0)
  | .whale a => (7, a, 0, "", 0, 0, 0)
  | .veryHighConcentrationFew a b => (8, b, 0, "", a, 0, 0)
  | .veryHighDevHoldings a => (9, a, 0, "", 0, 0, 0)
  | .highDevHoldings a => (10, a, 0, "", 0, 0, 0)
  | .moderateDevHoldings a => (11, a, 0, "", 0, 0, 0)
  | .lowTraderDiversity a b => (12, 0, 0, "", a, b, 0)
  | .volumeManipulationRisk a b => (13, 0, 0, "", a, b, 0)
  | .microBuys a b => (14, 0, 0, "", a, b, 0)
  | .airdropDump a => (15, 0, 0, "", a, 0, 0)
  | .minorAirdropDump a => (16, 0, 0, "", a, 0, 0)
  | .noSocialLinks => (17, 0, 0, "", 0, 0, 0)
  | .noTwitter => (18, 0, 0, "", 0, 0, 0)
  | .noWebsite => (19, 0, 0, "", 0, 0, 0)
  | .genericDescription => (20, 0, 0, "", 0, 0, 0)
  | .possibleImpersonation => (21, 0, 0, "", 0, 0, 0)
  | .veryNewToken a => (22, 0, 0, "", 0, 0, a)
  | .newToken a => (23, 0, 0, "", 0, 0, a)
  | .recentlyLaunched a => (24, a, 0, "", 0, 0, 0)
  | .extremeBuyPressure a => (25, a, 0, "", 0, 0, 0)
  | .highBuyPressure a => (26, a, 0, "", 0, 0, 0)
  | .dumpInProgress a => (27, a, 0, "", 0, 0, 0)
  | .volumeSpike a => (28, a, 0, "", 0, 0, 0)
  | .extremeVolatility5m a => (29, a, 0, "", 0, 0, 0)
  | .highVolatility1h a => (30, a, 0, "", 0, 0, 0)
  | .dangerouslyLowLiquidity a => (31, a, 0, "", 0, 0, 0)
  | .lowLiquidityOfMc a => (32, a, 0, "", 0, 0, 0)
  | .moderateLiquidityOfMc a => (33, a, 0, "", 0, 0, 0)
  | .suspiciousVolumeLiquidity a => (34, a, 0, "", 0, 0, 0)
  | .highVolumeLiquidity a => (35, a, 0, "", 0, 0, 0)
  | .veryLowLiquidity a => (36, a, 0, "", 0, 0, 0)
  | .lowLiquidityAbs a => (37, a, 0, "", 0, 0, 0)
  | .securityDataUnavailable => (38, 0, 0, "", 0, 0, 0)
  | .mintNotRevoked => (39, 0, 0, "", 0, 0, 0)
  | .freezeNotRevoked => (40, 0, 0, "", 0, 0, 0)
  | .lpNotLocked a => (41, a, 0, "", 0, 0, 0)
  | .lowLpLock a => (42, a, 0, "", 0, 0, 0)
  | .topHoldersContracts => (43, 0, 0, "", 0, 0, 0)
  | .highRugpullRisk => (44, 0, 0, "", 0, 0, 0)
  | .bundledLaunch a => (45, a, 0, "", 0, 0, 0)
  | .bundledBuysDetected a => (46, a, 0, "", 0, 0, 0)
  | .heavySniperActivity a => (47, a, 0, "", 0, 0, 0)
  | .sniperActivity a => (48, a, 0, "", 0, 0, 0)
  | .largeEarlyBuys a => (49, a, 0, "", 0, 0, 0)
  | .significantEarlyBuys a => (50, a, 0, "", 0, 0, 0)
  | .creatorBoughtBackFlag => (51, 0, 0, "", 0, 0, 0)
  | .coordinatedBuying a => (52, a, 0, "", 0, 0, 0)
  | .walletClustering a => (53, a, 0, "", 0, 0, 0)
  | .minorWalletClustering => (54, 0, 0, "", 0, 0, 0)
  | .manyFreshWallets a => (55, a, 0, "", 0, 0, 0)
  | .freshWalletActivity a => (56, a, 0, "", 0, 0, 0)
  | .suspiciousFunding => (57, 0, 0, "", 0, 0, 0)
  | .extremeTradeVelocity a => (58, a, 0, "", 0, 0, 0)
  | .highTradeVelocity a => (59, a, 0, "", 0, 0, 0)
  | .elevatedTradeVelocity a => (60, a, 0, "", 0, 0, 0)
  | .serialScammer a => (61, 0, 0, "", a, 0, 0)
  | .highVolumeCreator a => (62, 0, 0, "", a, 0, 0)
  | .serialCreatorFlag a => (63, 0, 0, "", a, 0, 0)
  | .prolificCreator a => (64, a, 0, "", 0, 0, 0)
  | .multipleTokens a => (65, a, 0, "", 0, 0, 0)
  | .previousTokens a => (66, a, 0, "", 0, 0, 0)
  | .failedTokensHistory a => (67, a, 0, "", 0, 0, 0)
  | .rugInProgressRisk => (68, 0, 0, "", 0, 0, 0)
  | .pumpSetupRisk => (69, 0, 0, "", 0, 0, 0)
  | .washTradingRisk => (70, 0, 0, "", 0, 0, 0)
  | .coordinatedDumpRisk => (71, 0, 0, "", 0, 0, 0)
  | .insiderActivityRisk => (72, 0, 0, "", 0, 0, 0)

/-- Partial inverse of `RiskFlag.encode`. -/
def RiskFlag.decode : ℕ × ℚ × ℚ × String × ℕ × ℕ × ℤ → Option RiskFlag
  | (tag, q1, _q2, s, n1, n2, z) =>
    match tag with
    | 0 => some (.washTradingWallet s)
    | 1 => some (.botActivity s)
    | 2 => some (.lowHolders q1)
    | 3 => some (.moderateHolders q1)
    | 4 => some (.veryHighConcentration q1)
    | 5 => some (.highConcentration q1)
    | 6 => some (.megaWhale q1)
    | 7 => some (.whale q1)
    | 8 => some (.veryHighConcentrationFew n1 q1)
    | 9 => some (.veryHighDevHoldings q1)
    | 10 => some (.highDevHoldings q1)
    | 11 => some (.moderateDevHoldings q1)
    | 12 => some (.lowTraderDiversity n1 n2)
    | 13 => some (.volumeManipulationRisk n1 n2)
    | 14 => some (.microBuys n1 n2)
    | 15 => some (.airdropDump n1)
    | 16 => some (.minorAirdropDump n1)
    | 17 => some .noSocialLinks
    | 18 => some .noTwitter
    | 19 => some .noWebsite
    | 20 => some .genericDescription
    | 21 => some .possibleImpersonation
    | 22 => some (.veryNewToken z)
    | 23 => some (.newToken z)
    | 24 => some (.recentlyLaunched q1)
    | 25 => some (.extremeBuyPressure q1)
    | 26 => some (.highBuyPressure q1)
    | 27 => some (.dumpInProgress q1)
    | 28 => some (.volumeSpike q1)
    | 29 => some (.extremeVolatility5m q1)
    | 30 => some (.highVolatility1h q1)
    | 31 => some (.dangerouslyLowLiquidity q1)
    | 32 => some (.lowLiquidityOfMc q1)
    | 33 => some (.moderateLiquidityOfMc q1)
    | 34 => some (.suspiciousVolumeLiquidity q1)
    | 35 => some (.highVolumeLiquidity q1)
    | 36 => some (.veryLowLiquidity q1)
    | 37 => some (.lowLiquidityAbs q1)
    | 38 => some .securityDataUnavailable
    | 39 => some .mintNotRevoked
    | 40 => some .freezeNotRevoked
    | 41 => some (.lpNotLocked q1)
    | 42 => some (.lowLpLock q1)
    | 43 => some .topHoldersContracts
    | 44 => some .highRugpullRisk
    | 45 => some (.bundledLaunch q1)
    | 46 => some (.bundledBuysDetected q1)
    | 47 => some (.heavySniperActivity q1)
    | 48 => some (.sniperActivity q1)
    | 49 => some (.largeEarlyBuys q1)
    | 50 => some (.significantEarlyBuys q1)
    | 51 => some .creatorBoughtBackFlag
    | 52 => some (.coordinatedBuying q1)
    | 53 => some (.walletClustering q1)
    | 54 => some .minorWalletClustering
    | 55 => some (.manyFreshWallets q1)
    | 56 => some (.freshWalletActivity q1)
    | 57 => some .suspiciousFunding
    | 58 => some (.extremeTradeVelocity q1)
    | 59 => some (.highTradeVelocity q1)
    | 60 => some (.elevatedTradeVelocity q1)
    | 61 => some (.serialScammer n1)
    | 62 => some (.highVolumeCreator n1)
    | 63 => some (.serialCreatorFlag n1)
    | 64 => some (.prolificCreator q1)
    | 65 => some (.multipleTokens q1)
    | 66 => some (.previousTokens q1)
    | 67 => some (.failedTokensHistory q1)
    | 68 => some .rugInProgressRisk
    | 69 => some .pumpSetupRisk
    | 70 => some .washTradingRisk
    | 71 => some .coordinatedDumpRisk
    | 72 => some .insiderActivityRisk
    | _ => none

lemma RiskFlag.decode_encode (f : RiskFlag) : RiskFlag.decode f.encode = some f := by
  cases f <;> rfl

instance : DecidableEq RiskFlag := fun a b =>
  if h : a.encode = b.encode then
    isTrue (by
      have h2 := congrArg RiskFlag.decode h
      rw [RiskFlag.decode_encode, RiskFlag.decode_encode] at h2
      exact Option.some_inj.mp h2)
  else isFalse (fun he => h (congrArg RiskFlag.encode he))


/-- The source string template of each flag, with `#` in place of each
interpolated number (and of the truncated wallet address).  The `#`
placeholder contains no letter, so every `String.includes` test performed
by the source on these strings is decided identically on the rendering. -/
def flagText : RiskFlag → String
  | .washTradingWallet _ => "Wash trading: #..."
  | .botActivity _ => "Bot activity: #..."
  | .lowHolders _ => "Low holders: #"
  | .moderateHolders _ => "Moderate holders: #"
  | .veryHighConcentration _ => "Very high concentration: Top 10 hold #%"
  | .highConcentration _ => "High concentration: Top 10 hold #%"
  | .megaWhale _ => "Mega whale: #% held by one wallet"
  | .whale _ => "Whale: #% held by one wallet"
  | .veryHighConcentrationFew _ _ => "Very high concentration: Top # hold #%"
  | .veryHighDevHoldings _ => "Very high dev holdings: #%"
  | .highDevHoldings _ => "High dev holdings: #%"
  | .moderateDevHoldings _ => "Moderate dev holdings: #%"
  | .lowTraderDiversity _ _ => "Low trader diversity: #/# unique"
  | .volumeManipulationRisk _ _ => "Volume manipulation risk: # unique in # txs"
  | .microBuys _ _ => "Micro-buys: #/# tiny transactions"
  | .airdropDump _ => "Airdrop dump: # recipients sold"
  | .minorAirdropDump _ => "Minor airdrop dump: # recipients sold"
  | .noSocialLinks => "No social links"
  | .noTwitter => "No Twitter"
  | .noWebsite => "No website"
  | .genericDescription => "Generic description"
  | .possibleImpersonation => "Possible impersonation"
  | .veryNewToken _ => "Very new token: #m old"
  | .newToken _ => "New token: #m old"
  | .recentlyLaunched _ => "Recently launched: #h old"
  | .extremeBuyPressure _ => "Extreme buy pressure: #% buys"
  | .highBuyPressure _ => "High buy pressure: #% buys"
  | .dumpInProgress _ => "Dump in progress: #% sells"
  | .volumeSpike _ => "Volume spike: #x normal activity"
  | .extremeVolatility5m _ => "Extreme 5m volatility: #%"
  | .highVolatility1h _ => "High 1h volatility: #%"
  | .dangerouslyLowLiquidity _ => "Dangerously low liquidity: #% of MC"
  | .lowLiquidityOfMc _ => "Low liquidity: #% of MC"
  | .moderateLiquidityOfMc _ => "Moderate liquidity: #% of MC"
  | .suspiciousVolumeLiquidity _ => "Suspicious volume/liquidity: #x ratio"
  | .highVolumeLiquidity _ => "High volume/liquidity: #x ratio"
  | .veryLowLiquidity _ => "Very low liquidity: $#"
  | .lowLiquidityAbs _ => "Low liquidity: $#"
  | .securityDataUnavailable => "Security data unavailable"
  | .mintNotRevoked => "⚠️ Mint authority NOT revoked (can mint more tokens)"
  | .freezeNotRevoked => "⚠️ Freeze authority exists (can freeze transfers)"
  | .lpNotLocked _ => "⚠️ LP not locked (#% locked)"
  | .lowLpLock _ => "Low LP lock: #%"
  | .topHoldersContracts => "Top holders are contracts (honeypot risk)"
  | .highRugpullRisk => "🚨 High rugpull risk"
  | .bundledLaunch _ => "🤖 Bundled launch: # buys in creation block"
  | .bundledBuysDetected _ => "Bundled buys detected: #"
  | .heavySniperActivity _ => "Heavy sniper activity: # early buyers"
  | .sniperActivity _ => "Sniper activity: # early buyers"
  | .largeEarlyBuys _ => "Large early buys: avg # SOL"
  | .significantEarlyBuys _ => "Significant early buys: avg # SOL"
  | .creatorBoughtBackFlag => "Creator bought tokens after launch"
  | .coordinatedBuying _ => "🕵️ Coordinated buying: # wallets from same source"
  | .walletClustering _ => "Wallet clustering: # wallets from same source"
  | .minorWalletClustering => "Minor wallet clustering detected"
  | .manyFreshWallets _ => "🆕 Many fresh wallets: # created recently"
  | .freshWalletActivity _ => "Fresh wallet activity: # new wallets"
  | .suspiciousFunding => "Suspicious funding pattern detected"
  | .extremeTradeVelocity _ => "Extreme trade velocity: # trades/holder"
  | .highTradeVelocity _ => "High trade velocity: # trades/holder"
  | .elevatedTradeVelocity _ => "Elevated trade velocity: # trades/holder"
  | .serialScammer _ => "🚨 SERIAL SCAMMER: Creator launched # tokens in 30 days"
  | .highVolumeCreator _ => "⚠️ High-volume creator: # tokens in 30 days"
  | .serialCreatorFlag _ => "Serial creator: # tokens in 30 days"
  | .prolificCreator _ => "Prolific creator: # total tokens"
  | .multipleTokens _ => "Multiple tokens: # total"
  | .previousTokens _ => "# previous tokens"
  | .failedTokensHistory _ => "History of failed tokens: # suspected rugs"
  | .rugInProgressRisk => "🚨 RUG IN PROGRESS: High concentration + active dumping"
  | .pumpSetupRisk => "⚠️ PUMP SETUP: Artificial buy pressure detected"
  | .washTradingRisk => "🤖 WASH TRADING: Bot activity pattern detected"
  | .coordinatedDumpRisk => "📉 COORDINATED DUMP: Multiple large sells detected"
  | .insiderActivityRisk => "🕵️ INSIDER ACTIVITY: Coordinated accumulation detected"

/-- The positive signal strings of `calculatePositiveSignals`. -/
inductive Signal where
  | age24h          -- "✅ Token age > 24 hours"
  | age72h          -- "✅ Token age > 3 days"
  | strongHolderBase   -- "✅ Strong holder base (500+)"
  | goodHolderCount    -- "✅ Good holder count (200+)"
  | balancedTrading    -- "✅ Balanced trading activity"
  | healthyLiquidity   -- "✅ Healthy liquidity ratio"
  | hasSocials         -- "✅ Has Twitter and website"
  | securityVerified   -- "✅ Security fully verified"
deriving DecidableEq, Repr

/-- The positive signal strings collected inside `calculateDangerScore`. -/
inductive DangerSignal where
  | mintRevoked | freezeRevoked | lpLockedSig | goodHolders | goodLiquidity
deriving DecidableEq, Repr

/-- `FilterCheckResult` (without the optional `maxScore`, which
`analyzeToken` adds when building the breakdown). -/
structure FilterCheckResult where
  penalty : ℤ
  flags : List RiskFlag
deriving DecidableEq, Repr

/-- A breakdown entry: a check result together with its cap. -/
structure BreakdownEntry where
  penalty : ℤ
  flags : List RiskFlag
  maxScore : ℤ
deriving DecidableEq, Repr

/-- `AnalysisBreakdown`: the eleven entries `analyzeToken` records
(the walletFunding, tradeVelocity and creatorHistory results are NOT
recorded in the breakdown by the source). -/
structure AnalysisBreakdown where
  washTrading : BreakdownEntry
  holders : BreakdownEntry
  developer : BreakdownEntry
  volume : BreakdownEntry
  airdrops : BreakdownEntry
  social : BreakdownEntry
  tokenAge : BreakdownEntry
  buyPressure : BreakdownEntry
  liquidity : BreakdownEntry
  security : BreakdownEntry
  snipers : BreakdownEntry
deriving DecidableEq, Repr

/-- `CompositeRiskIndicators`. -/
structure CompositeRiskIndicators where
  rugInProgress : Bool
  pumpSetup : Bool
  washTrading : Bool
  coordinatedDump : Bool
  insiderAccumulation : Bool
deriving DecidableEq, Repr

/-- Danger confidence levels. -/
inductive Confidence where
  | high | medium | low
deriving DecidableEq, Repr

/-- Danger categories. -/
inductive RiskCategory where
  | SAFE | LOW_RISK | MODERATE | HIGH_RISK | EXTREME
deriving DecidableEq, Repr

/-- `DangerScore`. -/
structure DangerScore where
  overall : ℤ
  confidence : Confidence
  category : RiskCategory
  primaryRisks : List RiskFlag
  positiveSignals : List DangerSignal
deriving DecidableEq, Repr

/-- `AnalysisResult`. -/
structure AnalysisResult where
  passed : Bool
  score : ℤ
  flags : List RiskFlag
  breakdown : AnalysisBreakdown
  dangerScore : DangerScore
  compositeRisks : CompositeRiskIndicators
  positiveSignals : List Signal
deriving DecidableEq, Repr

/-- The result of `calculatePositiveSignals`. -/
structure BonusResult where
  bonus : ℤ
  signals : List Signal
deriving DecidableEq, Repr

/-! ## The checks of `ScamFilterEngine` (current version,
`src/services/bitquery.service.ts`).

The source accumulates `penalty` and `flags` imperatively; each check is
unrolled here into the sum / concatenation of the contributions of its
`if` chains, in source order. -/

/-- Buys counted for a wallet by `checkWashTrading` (`BUY` or `SWAP`). -/
def walletBuys (txs : List Transaction) (w : String) : ℕ :=
  (txs.filter (fun tx => tx.source == w && (tx.type == .BUY || tx.type == .SWAP))).length

/-- Sells counted for a wallet by `checkWashTrading`. -/
def walletSells (txs : List Transaction) (w : String) : ℕ :=
  (txs.filter (fun tx => tx.source == w && tx.type == .SELL)).length

/-- The timestamps recorded for a wallet by `checkWashTrading`. -/
def walletTimes (txs : List Transaction) (w : String) : List ℚ :=
  (txs.filter (fun tx => tx.source == w)).map (·.timestamp)

/-- One wallet's contribution inside the `Object.entries(...)` loop of
`checkWashTrading`. -/
def washWalletEntry (txs : List Transaction) (w : String) : ℤ × List RiskFlag :=
  let buys := walletBuys txs w
  let sells := walletSells txs w
  let times := walletTimes txs w
  let e1 : ℤ × List RiskFlag :=
    if buys > 5 ∧ sells > 5 then (12, [.washTradingWallet w]) else (0, [])
  let e2 : ℤ × List RiskFlag :=
    if times.length > 1 then
      let sorted := sortByLe (fun a b => decide (a ≤ b)) times
      let diffs := (sorted.zip sorted.tail).map (fun p => p.2 - p.1)
      let avgInterval := diffs.sum / (diffs.length : ℚ)
      if avgInterval < 30000 ∧ buys + sells > 10 then (10, [.botActivity w]) else (0, [])
    else (0, [])
  (e1.1 + e2.1, e1.2 ++ e2.2)

/-- `checkWashTrading` (penalties 12 / 10, cap 20 — current version). -/
def checkWashTrading (txs : List Transaction) : FilterCheckResult :=
  if txs.length = 0 then ⟨0, []⟩
  else
    let entries := (dedupFirst (txs.map (·.source))).map (washWalletEntry txs)
    ⟨min (entries.foldl (fun a e => a + e.1) 0) 20, (entries.map (·.2)).flatten⟩

/-- `checkHolderDistribution`.  `holderCount` is
`actualHolderCount || holders.length` (JS falsy fallback: `undefined` and
`0` fall back to the list length; `-1` is truthy and is kept). -/
def checkHolderDistribution (cfg : FilterThresholds) (holders : List Holder)
    (actualHolderCount : Option ℚ) : FilterCheckResult :=
  let holderCount := jsNum actualHolderCount (holders.length : ℚ)
  let e1 : ℤ × List RiskFlag :=
    if holderCount < cfg.minHolders then (15, [.lowHolders holderCount])
    else if holderCount < cfg.minHolders * 2 then (8, [.moderateHolders holderCount])
    else (0, [])
  let e2 : ℤ × List RiskFlag :=
    if holders.length ≥ 10 then
      let top10Pct := ((holders.take 10).map (·.percentage)).sum / 100
      let c1 : ℤ × List RiskFlag :=
        if top10Pct > 1/2 then (15, [.veryHighConcentration (top10Pct * 100)])
        else if top10Pct > cfg.maxTopHolderConc then (10, [.highConcentration (top10Pct * 100)])
        else (0, [])
      let largestPct := (match holders.head? with | some h => h.percentage | none => 0) / 100
      let c2 : ℤ × List RiskFlag :=
        if largestPct > 3/10 then (10, [.megaWhale (largestPct * 100)])
        else if largestPct > 1/5 then (6, [.whale (largestPct * 100)])
        else (0, [])
      (c1.1 + c2.1, c1.2 ++ c2.2)
    else if holders.length > 0 then
      let totalPct := (holders.map (·.percentage)).sum / 100
      let c1 : ℤ × List RiskFlag :=
        if totalPct > 4/5 then (15, [.veryHighConcentrationFew holders.length (totalPct * 100)])
        else (0, [])
      let largestPct := (match holders.head? with | some h => h.percentage | none => 0) / 100
      let c2 : ℤ × List RiskFlag :=
        if largestPct > 3/10 then (10, [.megaWhale (largestPct * 100)])
        else if largestPct > 1/5 then (6, [.whale (largestPct * 100)])
        else (0, [])
      (c1.1 + c2.1, c1.2 ++ c2.2)
    else (0, [])
  ⟨min (e1.1 + e2.1) 25, e1.2 ++ e2.2⟩

/-- `checkDeveloperHoldings`. -/
def checkDeveloperHoldings (cfg : FilterThresholds) (holders : List Holder)
    (devWallet : String) (devHoldingsAmount : ℚ) : FilterCheckResult :=
  let totalSupply := (holders.map (·.amount)).sum
  let e : ℤ × List RiskFlag :=
    if totalSupply > 0 ∧ devHoldingsAmount > 0 then
      let devPct := devHoldingsAmount / totalSupply
      if devPct > 1/4 then (15, [.veryHighDevHoldings (devPct * 100)])
      else if devPct > cfg.maxDevHoldings then (10, [.highDevHoldings (devPct * 100)])
      else if devPct > 1/20 then (5, [.moderateDevHoldings (devPct * 100)])
      else (0, [])
    else if devWallet ≠ "" ∧ holders.length > 0 then
      match holders.find? (fun h => strLower h.address == strLower devWallet) with
      | some devHolding =>
        if totalSupply > 0 then
          let devPct := devHolding.amount / totalSupply
          if devPct > cfg.maxDevHoldings then (10, [.highDevHoldings (devPct * 100)])
          else (0, [])
        else (0, [])
      | none => (0, [])
    else (0, [])
  ⟨min e.1 15, e.2⟩

/-- `checkVolumeManipulation` (current version). -/
def checkVolumeManipulation (cfg : FilterThresholds) (txs : List Transaction) :
    FilterCheckResult :=
  if txs.length = 0 then ⟨0, []⟩
  else
    let uniqueTraders := (dedupFirst (txs.map (·.source))).length
    let totalTxs := txs.length
    let uniqueFrac : ℚ := (uniqueTraders : ℚ) / (totalTxs : ℚ)
    let e1 : ℤ × List RiskFlag :=
      if uniqueFrac < 3/10 then (15, [.lowTraderDiversity uniqueTraders totalTxs])
      else if uniqueFrac < cfg.minUniqueTradersFrac then
        (8, [.volumeManipulationRisk uniqueTraders totalTxs])
      else (0, [])
    let buyTxs := txs.filter (fun tx => tx.type == .BUY || tx.type == .SWAP)
    let micro := (buyTxs.filter (fun tx => tx.amount < 1/100)).length
    let e2 : ℤ × List RiskFlag :=
      if buyTxs.length > 0 ∧ (micro : ℚ) > (buyTxs.length : ℚ) * (2/5) then
        (10, [.microBuys micro buyTxs.length])
      else (0, [])
    ⟨min (e1.1 + e2.1) 20, e1.2 ++ e2.2⟩

/-- Stable sort of transactions by timestamp (`[...transactions].sort`). -/
def sortByTime (txs : List Transaction) : List Transaction :=
  sortByLe (fun a b => decide (a.timestamp ≤ b.timestamp)) txs

/-- `checkAirdropScheme` (current version). -/
def checkAirdropScheme (txs : List Transaction) : FilterCheckResult :=
  if txs.length = 0 then ⟨0, []⟩
  else
    let sortedTxs := sortByTime txs
    match sortedTxs.findIdx? (fun tx =>
        tx.type == .BUY || tx.type == .SELL || tx.type == .SWAP) with
    | some firstTradeIdx =>
      if firstTradeIdx > 0 then
        let preTradeTransfers := (sortedTxs.take firstTradeIdx).filter
          (fun tx => tx.type == .TRANSFER)
        let dumpCount := (preTradeTransfers.filter (fun tr =>
          (sortedTxs.find? (fun tx =>
            (match tr.toUserAccount with | some a => tx.source == a | none => false) &&
            tx.type == .SELL && decide (tx.timestamp > tr.timestamp))).isSome)).length
        if dumpCount > 5 then ⟨min 15 15, [.airdropDump dumpCount]⟩
        else if dumpCount > 2 then ⟨min 8 15, [.minorAirdropDump dumpCount]⟩
        else ⟨0, []⟩
      else ⟨0, []⟩
    | none => ⟨0, []⟩

/-- The generic terms of `checkSocialSignals` (current version). -/
def genericTerms : List String :=
  ["moon", "pump", "gem", "100x", "1000x", "ape", "degen", "send it"]

/-- The impersonation patterns of `checkSocialSignals` (current version). -/
def copycatPatterns : List String := ["elon", "musk", "trump", "official"]

/-- `checkSocialSignals` (current version). -/
def checkSocialSignals (metadata : TokenMetadata) : FilterCheckResult :=
  let e1 : ℤ × List RiskFlag :=
    if strTruthy metadata.twitter = false ∧ strTruthy metadata.telegram = false then
      (6, [.noSocialLinks])
    else if strTruthy metadata.twitter = false then (3, [.noTwitter])
    else (0, [])
  let e2 : ℤ × List RiskFlag :=
    if strTruthy metadata.website = false then (2, [.noWebsite]) else (0, [])
  let description := strLower metadata.description
  let e3 : ℤ × List RiskFlag :=
    if genericTerms.any (fun t => strIncludes description t) ∧ description.length < 50 then
      (3, [.genericDescription])
    else (0, [])
  let nm := strLower metadata.name
  let e4 : ℤ × List RiskFlag :=
    if copycatPatterns.any (fun p => strIncludes nm p) ∧ strTruthy metadata.twitter = false then
      (4, [.possibleImpersonation])
    else (0, [])
  ⟨min (e1.1 + e2.1 + e3.1 + e4.1) 10, e1.2 ++ e2.2 ++ e3.2 ++ e4.2⟩

/-- `getTokenAgeHours` — the only place `Date.now()` enters the engine.
`now` is the clock reading at invocation (ms since epoch);
`createdAt = pairCreatedAt || migrationTimestamp || Date.now()`. -/
def getTokenAgeHours (pd : PriceData) (migrationTimestamp : Option ℚ) (now : ℚ) : ℚ :=
  let createdAt := jsNum pd.pairCreatedAt (jsNum migrationTimestamp now)
  (now - createdAt) / 3600000

/-- `checkTokenAge` (`createdAt = pairCreatedAt || migrationTimestamp`,
no `Date.now()` fallback in this check). -/
def checkTokenAge (pd : PriceData) (migrationTimestamp : ℚ) (now : ℚ) : FilterCheckResult :=
  let createdAt := jsNum pd.pairCreatedAt migrationTimestamp
  let ageHours := (now - createdAt) / 3600000
  let e : ℤ × List RiskFlag :=
    if ageHours < 1/2 then (15, [.veryNewToken (jsRound (ageHours * 60))])
    else if ageHours < 1 then (10, [.newToken (jsRound (ageHours * 60))])
    else if ageHours < 6 then (5, [.recentlyLaunched ageHours])
    else (0, [])
  ⟨min e.1 15, e.2⟩

/-- `checkBuyPressure`. -/
def checkBuyPressure (pd : PriceData) : FilterCheckResult :=
  let buys24h := pd.buys24h
  let sells24h := pd.sells24h
  let buys1h := jsNum pd.buys1h (jsNum pd.buysH1 0)
  let sells1h := jsNum pd.sells1h (jsNum pd.sellsH1 0)
  let buys5m := jsNum pd.buys5m 0
  let sells5m := jsNum pd.sells5m 0
  let priceChange5m := jsNum pd.priceChange5m 0
  let priceChange1h := jsNum pd.priceChange1h (jsNum pd.priceChangeH1 0)
  let total24h := buys24h + sells24h
  let total1h := buys1h + sells1h
  let total5m := buys5m + sells5m
  let e1 : ℤ × List RiskFlag :=
    if total24h > 10 then
      let frac := buys24h / total24h
      if frac > 9/10 then (10, [.extremeBuyPressure (frac * 100)])
      else if frac > 4/5 then (5, [.highBuyPressure (frac * 100)])
      else if frac < 1/5 then (15, [.dumpInProgress ((1 - frac) * 100)])
      else (0, [])
    else (0, [])
  let e2 : ℤ × List RiskFlag :=
    if total5m > 20 ∧ total1h > 0 then
      let fiveMinSpike := total5m / (total1h / 12)
      if fiveMinSpike > 5 then (8, [.volumeSpike fiveMinSpike]) else (0, [])
    else (0, [])
  let e3 : ℤ × List RiskFlag :=
    if |priceChange5m| > 30 then (10, [.extremeVolatility5m priceChange5m])
    else if |priceChange1h| > 50 then (8, [.highVolatility1h priceChange1h])
    else (0, [])
  ⟨min (e1.1 + e2.1 + e3.1) 15, e1.2 ++ e2.2 ++ e3.2⟩

/-- `checkLiquidityHealth`. -/
def checkLiquidityHealth (pd : PriceData) : FilterCheckResult :=
  let e1 : ℤ × List RiskFlag :=
    if pd.marketCap > 0 then
      let liqFrac := pd.liquidity / pd.marketCap
      if liqFrac < 1/50 then (20, [.dangerouslyLowLiquidity (liqFrac * 100)])
      else if liqFrac < 1/20 then (12, [.lowLiquidityOfMc (liqFrac * 100)])
      else if liqFrac < 1/10 then (5, [.moderateLiquidityOfMc (liqFrac * 100)])
      else (0, [])
    else (0, [])
  let e2 : ℤ × List RiskFlag :=
    if pd.liquidity > 0 then
      let volumeToLiq := pd.volume24h / pd.liquidity
      if volumeToLiq > 20 then (10, [.suspiciousVolumeLiquidity volumeToLiq])
      else if volumeToLiq > 10 then (5, [.highVolumeLiquidity volumeToLiq])
      else (0, [])
    else (0, [])
  let e3 : ℤ × List RiskFlag :=
    if pd.liquidity < 5000 then (10, [.veryLowLiquidity pd.liquidity])
    else if pd.liquidity < 10000 then (5, [.lowLiquidityAbs pd.liquidity])
    else (0, [])
  ⟨min (e1.1 + e2.1 + e3.1) 20, e1.2 ++ e2.2 ++ e3.2⟩

/-- `checkSecurity`.  With no security data the check returns penalty 5
and the "Security data unavailable" flag (early return, before the cap). -/
def checkSecurity (security : Option TokenSecurity) : FilterCheckResult :=
  match security with
  | none => ⟨5, [.securityDataUnavailable]⟩
  | some s =>
    let e1 : ℤ × List RiskFlag :=
      if s.mintAuthorityRevoked = false then (15, [.mintNotRevoked]) else (0, [])
    let e2 : ℤ × List RiskFlag :=
      if s.freezeAuthorityRevoked = false then (10, [.freezeNotRevoked]) else (0, [])
    let e3 : ℤ × List RiskFlag :=
      if s.lpLocked = false ∧ s.lpLockPercentage < 80 then (15, [.lpNotLocked s.lpLockPercentage])
      else if s.lpLockPercentage < 50 then (8, [.lowLpLock s.lpLockPercentage])
      else (0, [])
    let e4 : ℤ × List RiskFlag :=
      if s.topHoldersAreContracts then (10, [.topHoldersContracts]) else (0, [])
    let e5 : ℤ × List RiskFlag :=
      if s.isRugpullRisk then (5, [.highRugpullRisk]) else (0, [])
    ⟨min (e1.1 + e2.1 + e3.1 + e4.1 + e5.1) 25, e1.2 ++ e2.2 ++ e3.2 ++ e4.2 ++ e5.2⟩

/-- `checkSnipers`. -/
def checkSnipers (launchAnalysis : Option LaunchAnalysis) : FilterCheckResult :=
  match launchAnalysis with
  | none => ⟨0, []⟩
  | some la =>
    let e1 : ℤ × List RiskFlag :=
      if la.bundledBuys > 3 then (15, [.bundledLaunch la.bundledBuys])
      else if la.bundledBuys > 1 then (8, [.bundledBuysDetected la.bundledBuys])
      else (0, [])
    let e2 : ℤ × List RiskFlag :=
      if la.sniperCount > 20 then (12, [.heavySniperActivity la.sniperCount])
      else if la.sniperCount > 10 then (6, [.sniperActivity la.sniperCount])
      else (0, [])
    let e3 : ℤ × List RiskFlag :=
      if la.avgFirstBuySize > 5 then (10, [.largeEarlyBuys la.avgFirstBuySize])
      else if la.avgFirstBuySize > 2 then (5, [.significantEarlyBuys la.avgFirstBuySize])
      else (0, [])
    let e4 : ℤ × List RiskFlag :=
      if la.creatorBoughtBack then (8, [.creatorBoughtBackFlag]) else (0, [])
    ⟨min (e1.1 + e2.1 + e3.1 + e4.1) 20, e1.2 ++ e2.2 ++ e3.2 ++ e4.2⟩

/-- `checkWalletFunding`. -/
def checkWalletFunding (walletFunding : Option WalletFundingAnalysis) : FilterCheckResult :=
  match walletFunding with
  | none => ⟨0, []⟩
  | some wf =>
    let e1 : ℤ × List RiskFlag :=
      if wf.clusteredWallets ≥ 5 then (20, [.coordinatedBuying wf.clusteredWallets])
      else if wf.clusteredWallets ≥ 3 then (12, [.walletClustering wf.clusteredWallets])
      else if wf.clusteredWallets ≥ 2 then (5, [.minorWalletClustering])
      else (0, [])
    let e2 : ℤ × List RiskFlag :=
      if wf.freshWalletBuyers ≥ 5 then (15, [.manyFreshWallets wf.freshWalletBuyers])
      else if wf.freshWalletBuyers ≥ 3 then (8, [.freshWalletActivity wf.freshWalletBuyers])
      else (0, [])
    let e3 : ℤ × List RiskFlag :=
      if wf.suspiciousFundingPattern then (5, [.suspiciousFunding]) else (0, [])
    ⟨min (e1.1 + e2.1 + e3.1) 25, e1.2 ++ e2.2 ++ e3.2⟩

/-- `checkTradeVelocity`.  Skips entirely (penalty 0) when the holder
count is falsy, non-positive (this includes the `-1` sentinel) or there
are no 24h trades. -/
def checkTradeVelocity (pd : PriceData) (holderCount : Option ℚ) : FilterCheckResult :=
  if numTruthy holderCount = false ∨ holderCount.getD 0 ≤ 0 ∨ pd.trades24h ≤ 0 then ⟨0, []⟩
  else
    let tradesPerHolder := pd.trades24h / holderCount.getD 0
    let e : ℤ × List RiskFlag :=
      if tradesPerHolder > 20 then (15, [.extremeTradeVelocity tradesPerHolder])
      else if tradesPerHolder > 10 then (10, [.highTradeVelocity tradesPerHolder])
      else if tradesPerHolder > 5 then (5, [.elevatedTradeVelocity tradesPerHolder])
      else (0, [])
    ⟨min e.1 15, e.2⟩

/-- `checkCreatorHistory`. -/
def checkCreatorHistory (creatorHistory : Option CreatorHistory) : FilterCheckResult :=
  match creatorHistory with
  | none => ⟨0, []⟩
  | some ch =>
    let e1 : ℤ × List RiskFlag :=
      if ch.isSerialCreator then
        let recentCount := ch.recentTokens.length
        if recentCount ≥ 10 then (30, [.serialScammer recentCount])
        else if recentCount ≥ 5 then (20, [.highVolumeCreator recentCount])
        else if recentCount ≥ 3 then (12, [.serialCreatorFlag recentCount])
        else (0, [])
      else (0, [])
    let e2 : ℤ × List RiskFlag :=
      if ch.tokenCount ≥ 20 then (15, [.prolificCreator ch.tokenCount])
      else if ch.tokenCount ≥ 10 then (8, [.multipleTokens ch.tokenCount])
      else if ch.tokenCount ≥ 5 then (4, [.previousTokens ch.tokenCount])
      else (0, [])
    let e3 : ℤ × List RiskFlag :=
      if ch.ruggedTokens ≥ 3 then (15, [.failedTokensHistory ch.ruggedTokens]) else (0, [])
    ⟨min (e1.1 + e2.1 + e3.1) 35, e1.2 ++ e2.2 ++ e3.2⟩

/-! ## Positive signals, composite risks, danger score -/

/-- `calculatePositiveSignals`.  With at most 10 total 24h trades the buy
fraction defaults to 0.5 (which lies inside the balanced band). -/
def calculatePositiveSignals (td : TokenData) (now : ℚ) : BonusResult :=
  let ageHours := getTokenAgeHours td.priceData (some td.migrationTimestamp) now
  let buys := td.priceData.buys24h
  let sells := td.priceData.sells24h
  let totalTrades := buys + sells
  let buyFrac : ℚ := if totalTrades > 10 then buys / totalTrades else 1/2
  let e1 : ℤ × List Signal := if ageHours ≥ 24 then (5, [.age24h]) else (0, [])
  let e2 : ℤ × List Signal := if ageHours ≥ 72 then (5, [.age72h]) else (0, [])
  let e3 : ℤ × List Signal :=
    if numTruthy td.holderCount = true ∧ td.holderCount.getD 0 ≥ 500 then
      (5, [.strongHolderBase])
    else if numTruthy td.holderCount = true ∧ td.holderCount.getD 0 ≥ 200 then
      (3, [.goodHolderCount])
    else (0, [])
  let e4 : ℤ × List Signal :=
    if 2/5 ≤ buyFrac ∧ buyFrac ≤ 3/5 then (5, [.balancedTrading]) else (0, [])
  let e5 : ℤ × List Signal :=
    if td.priceData.marketCap > 0 then
      if td.priceData.liquidity / td.priceData.marketCap ≥ 1/10 then
        (5, [.healthyLiquidity])
      else (0, [])
    else (0, [])
  let e6 : ℤ × List Signal :=
    if strTruthy td.metadata.twitter = true ∧ strTruthy td.metadata.website = true then
      (3, [.hasSocials])
    else (0, [])
  let e7 : ℤ × List Signal :=
    match td.security with
    | some s =>
      if s.mintAuthorityRevoked = true ∧ s.freezeAuthorityRevoked = true ∧ s.lpLocked = true then
        (5, [.securityVerified])
      else (0, [])
    | none => (0, [])
  ⟨min (e1.1 + e2.1 + e3.1 + e4.1 + e5.1 + e6.1 + e7.1) 25,
   e1.2 ++ e2.2 ++ e3.2 ++ e4.2 ++ e5.2 ++ e6.2 ++ e7.2⟩

/-- `detectCompositeRisks`.  It receives the check results but reads only
`holderResult.flags` (via `String.includes` matching) and
`tradeVelocityResult.penalty`.  Note that the composite's own age uses
`getTokenAgeHours(priceData)` with NO migration timestamp, so the age is 0
whenever `pairCreatedAt` is falsy. -/
def detectCompositeRisks (td : TokenData) (holderResult velocityResult : FilterCheckResult)
    (now : ℚ) : CompositeRiskIndicators :=
  let buys := td.priceData.buys24h
  let sells := td.priceData.sells24h
  let totalTrades := buys + sells
  let sellFrac : ℚ := if totalTrades > 0 then sells / totalTrades else 0
  let buyFrac : ℚ := if totalTrades > 0 then buys / totalTrades else 0
  let ageHours := getTokenAgeHours td.priceData none now
  let tradesPerHolder : ℚ :=
    if numTruthy td.holderCount = true ∧ td.holderCount.getD 0 > 0 then
      td.priceData.trades24h / td.holderCount.getD 0
    else 0
  let rugInProgress :=
    holderResult.flags.any (fun f =>
      strIncludes (flagText f) "Very high concentration" ||
      strIncludes (flagText f) "Mega whale")
    && decide (sellFrac > 7/10) && decide (ageHours < 12)
  let pumpSetup :=
    decide (buyFrac > 17/20)
    && (td.holderCount.isNone || decide (td.holderCount.getD 0 < 100))
    && decide (ageHours < 6) && decide (td.priceData.trades24h > 100)
  let washTrading :=
    decide (tradesPerHolder > 10) && decide (velocityResult.penalty > 5)
  let coordinatedDump :=
    decide (sellFrac > 4/5) && decide (td.priceData.trades24h > 50) && decide (ageHours < 24)
  let insiderAccumulation :=
    decide ((match td.launchAnalysis with | some la => la.bundledBuys | none => 0) > 2)
    && decide ((match td.walletFunding with | some wf => wf.clusteredWallets | none => 0) ≥ 2)
    && holderResult.flags.any (fun f => strIncludes (flagText f) "whale")
  ⟨rugInProgress, pumpSetup, washTrading, coordinatedDump, insiderAccumulation⟩

/-- `Math.max(0, Math.min(100, score))`. -/
def clampScore (s : ℤ) : ℤ := max 0 (min 100 s)

/-- `danger = 100 - clamp(score)` — the base of the danger score. -/
def dangerBase (s : ℤ) : ℤ := 100 - clampScore s

/-- The composite boosts of `calculateDangerScore`, in source order:
rugInProgress +20, coordinatedDump +15, insiderAccumulation +10,
pumpSetup +10, washTrading +5, each addition clamped at 100. -/
def dangerBoosted (s : ℤ) (cr : CompositeRiskIndicators) : ℤ :=
  let d0 := dangerBase s
  let d1 := if cr.rugInProgress then min 100 (d0 + 20) else d0
  let d2 := if cr.coordinatedDump then min 100 (d1 + 15) else d1
  let d3 := if cr.insiderAccumulation then min 100 (d2 + 10) else d2
  let d4 := if cr.pumpSetup then min 100 (d3 + 10) else d3
  if cr.washTrading then min 100 (d4 + 5) else d4

/-- The confidence assignment of `calculateDangerScore`: sequential
overwrites `high` → `medium` → `low`. -/
def dangerConfidence (td : TokenData) : Confidence :=
  let c1 : Confidence :=
    if numTruthy td.holderCount = false ∨ td.holderCount.getD 0 < 0 then .medium else .high
  let c2 : Confidence := if td.security.isNone then .low else c1
  if td.priceData.trades24h = 0 then .low else c2

/-- The category thresholds of `calculateDangerScore`. -/
def dangerCategory (danger : ℤ) : RiskCategory :=
  if danger ≥ 80 then .EXTREME
  else if danger ≥ 60 then .HIGH_RISK
  else if danger ≥ 40 then .MODERATE
  else if danger ≥ 20 then .LOW_RISK
  else .SAFE

/-- The `riskPriority` pattern list of `calculateDangerScore`. -/
def riskPriority : List String :=
  ["🚨 RUG IN PROGRESS", "📉 COORDINATED DUMP", "🕵️ INSIDER ACTIVITY", "⚠️ PUMP SETUP",
   "Dump in progress", "Mega whale", "Mint authority NOT revoked", "LP not locked",
   "🤖 Bundled launch", "Very high concentration", "Dangerously low liquidity",
   "Heavy sniper activity", "Low holders", "No social links"]

/-- `primaryRisks`: for each priority pattern in order, the first flag
whose text contains it, up to three. -/
def primaryRisksOf (flags : List RiskFlag) : List RiskFlag :=
  riskPriority.foldl (fun acc p =>
    match flags.find? (fun f => strIncludes (flagText f) p) with
    | some f => if acc.length < 3 then acc ++ [f] else acc
    | none => acc) []

/-- The positive signals collected inside `calculateDangerScore`. -/
def dangerPositiveSignals (td : TokenData) : List DangerSignal :=
  (if (match td.security with | some s => s.mintAuthorityRevoked | none => false) then
    [DangerSignal.mintRevoked] else []) ++
  (if (match td.security with | some s => s.freezeAuthorityRevoked | none => false) then
    [DangerSignal.freezeRevoked] else []) ++
  (if (match td.security with | some s => s.lpLocked | none => false) then
    [DangerSignal.lpLockedSig] else []) ++
  (if numTruthy td.holderCount = true ∧ td.holderCount.getD 0 > 200 then
    [DangerSignal.goodHolders] else []) ++
  (if td.priceData.liquidity > 20000 then [DangerSignal.goodLiquidity] else [])

/-- `calculateDangerScore`.  `overall = Math.round(danger)`; the danger
value is an integer here, so the rounding is the identity. -/
def calculateDangerScore (safetyScore : ℤ) (flags : List RiskFlag)
    (cr : CompositeRiskIndicators) (td : TokenData) : DangerScore :=
  { overall := dangerBoosted safetyScore cr
    confidence := dangerConfidence td
    category := dangerCategory (dangerBoosted safetyScore cr)
    primaryRisks := primaryRisksOf flags
    positiveSignals := dangerPositiveSignals td }

/-! ## `analyzeToken`

The source runs the fourteen checks in order, subtracting each penalty
from the base score 100 and concatenating the flags; adds the bonus;
appends the composite risk flags while subtracting their extra penalties
(rug −20, pump −10, wash −10, dump −15, insider −15); computes the danger
score from the *pre-clamp* score; and finally clamps the score to
`[0, 100]`.  The breakdown records only eleven of the fourteen checks
(walletFunding, tradeVelocity and creatorHistory are omitted). -/

/-- The composite risk indicators computed by `analyzeToken`. -/
def compositeOf (cfg : FilterThresholds) (td : TokenData) (now : ℚ) :
    CompositeRiskIndicators :=
  detectCompositeRisks td (checkHolderDistribution cfg td.holders td.holderCount)
    (checkTradeVelocity td.priceData td.holderCount) now

/-- The extra score penalty applied by `analyzeToken` for the composite
risks (in source order: rug 20, pump 10, wash 10, dump 15, insider 15). -/
def compositePenaltyOf (cr : CompositeRiskIndicators) : ℤ :=
  (if cr.rugInProgress then 20 else 0) + (if cr.pumpSetup then 10 else 0) +
  (if cr.washTrading then 10 else 0) + (if cr.coordinatedDump then 15 else 0) +
  (if cr.insiderAccumulation then 15 else 0)

/-- The composite risk flags appended by `analyzeToken`, in source order. -/
def compositeFlagsOf (cr : CompositeRiskIndicators) : List RiskFlag :=
  (if cr.rugInProgress then [RiskFlag.rugInProgressRisk] else []) ++
  (if cr.pumpSetup then [RiskFlag.pumpSetupRisk] else []) ++
  (if cr.washTrading then [RiskFlag.washTradingRisk] else []) ++
  (if cr.coordinatedDump then [RiskFlag.coordinatedDumpRisk] else []) ++
  (if cr.insiderAccumulation then [RiskFlag.insiderActivityRisk] else [])

/-- The five composite risk flag values (the "composite-risk flags" of the
specification). -/
def compositeRiskFlagList : List RiskFlag :=
  [RiskFlag.rugInProgressRisk, RiskFlag.pumpSetupRisk, RiskFlag.washTradingRisk,
   RiskFlag.coordinatedDumpRisk, RiskFlag.insiderActivityRisk]

/-- The pre-clamp score of `analyzeToken` (base 100 minus the fourteen
check penalties, plus the bonus, minus the composite extra penalties). -/
def rawScore (cfg : FilterThresholds) (td : TokenData) (now : ℚ) : ℤ :=
  100
  - (checkWashTrading td.transactions).penalty
  - (checkHolderDistribution cfg td.holders td.holderCount).penalty
  - (checkDeveloperHoldings cfg td.holders td.metadata.creator td.devHoldings).penalty
  - (checkVolumeManipulation cfg td.transactions).penalty
  - (checkAirdropScheme td.transactions).penalty
  - (checkSocialSignals td.metadata).penalty
  - (checkTokenAge td.priceData td.migrationTimestamp now).penalty
  - (checkBuyPressure td.priceData).penalty
  - (checkLiquidityHealth td.priceData).penalty
  - (checkSecurity td.security).penalty
  - (checkSnipers td.launchAnalysis).penalty
  - (checkWalletFunding td.walletFunding).penalty
  - (checkTradeVelocity td.priceData td.holderCount).penalty
  - (checkCreatorHistory td.creatorHistory).penalty
  + (calculatePositiveSignals td now).bonus
  - compositePenaltyOf (compositeOf cfg td now)

/-- The flags list of `analyzeToken`: the fourteen checks' flags in source
order, then the composite risk flags. -/
def allFlags (cfg : FilterThresholds) (td : TokenData) (now : ℚ) : List RiskFlag :=
  (checkWashTrading td.transactions).flags ++
  (checkHolderDistribution cfg td.holders td.holderCount).flags ++
  (checkDeveloperHoldings cfg td.holders td.metadata.creator td.devHoldings).flags ++
  (checkVolumeManipulation cfg td.transactions).flags ++
  (checkAirdropScheme td.transactions).flags ++
  (checkSocialSignals td.metadata).flags ++
  (checkTokenAge td.priceData td.migrationTimestamp now).flags ++
  (checkBuyPressure td.priceData).flags ++
  (checkLiquidityHealth td.priceData).flags ++
  (checkSecurity td.security).flags ++
  (checkSnipers td.launchAnalysis).flags ++
  (checkWalletFunding td.walletFunding).flags ++
  (checkTradeVelocity td.priceData td.holderCount).flags ++
  (checkCreatorHistory td.creatorHistory).flags ++
  compositeFlagsOf (compositeOf cfg td now)

/-- A breakdown entry: a check result plus its `maxScore`. -/
def mkEntry (r : FilterCheckResult) (cap : ℤ) : BreakdownEntry :=
  ⟨r.penalty, r.flags, cap⟩

/-- The breakdown recorded by `analyzeToken` (eleven entries; the
walletFunding, tradeVelocity and creatorHistory results are not
recorded). -/
def breakdownOf (cfg : FilterThresholds) (td : TokenData) (now : ℚ) : AnalysisBreakdown :=
  { washTrading := mkEntry (checkWashTrading td.transactions) 20
    holders := mkEntry (checkHolderDistribution cfg td.holders td.holderCount) 25
    developer := mkEntry (checkDeveloperHoldings cfg td.holders td.metadata.creator td.devHoldings) 15
    volume := mkEntry (checkVolumeManipulation cfg td.transactions) 20
    airdrops := mkEntry (checkAirdropScheme td.transactions) 15
    social := mkEntry (checkSocialSignals td.metadata) 10
    tokenAge := mkEntry (checkTokenAge td.priceData td.migrationTimestamp now) 15
    buyPressure := mkEntry (checkBuyPressure td.priceData) 15
    liquidity := mkEntry (checkLiquidityHealth td.priceData) 20
    security := mkEntry (checkSecurity td.security) 25
    snipers := mkEntry (checkSnipers td.launchAnalysis) 20 }

/-- `ScamFilterEngine.analyzeToken`.  `now` is the value `Date.now()`
returns during the call (the source reads the clock inside
`checkTokenAge`, `detectCompositeRisks` and `calculatePositiveSignals`). -/
def analyzeToken (cfg : FilterThresholds) (td : TokenData) (now : ℚ) : AnalysisResult :=
  { passed := decide (clampScore (rawScore cfg td now) ≥ cfg.minScore)
    score := clampScore (rawScore cfg td now)
    flags := allFlags cfg td now
    breakdown := breakdownOf cfg td now
    dangerScore := calculateDangerScore (rawScore cfg td now) (allFlags cfg td now)
      (compositeOf cfg td now) td
    compositeRisks := compositeOf cfg td now
    positiveSignals := (calculatePositiveSignals td now).signals }

/-! ## The time-factored engine

`analyzeToken` reads the clock (`Date.now()`) in exactly three places,
all token-age computations: `checkTokenAge`,
`detectCompositeRisks` (via `getTokenAgeHours(priceData)` — with no
migration-timestamp fallback) and `calculatePositiveSignals` (via
`getTokenAgeHours(priceData, migrationTimestamp)`).  The definitions below
repeat the engine with those three ages as explicit inputs and no clock;
`analyzeToken_factors_through_ages` connects the two. -/

/-- The age used by `checkTokenAge` at clock reading `now`. -/
def ageForTokenAge (td : TokenData) (now : ℚ) : ℚ :=
  (now - jsNum td.priceData.pairCreatedAt td.migrationTimestamp) / 3600000

/-- The age used by `detectCompositeRisks` at clock reading `now`. -/
def ageForComposite (td : TokenData) (now : ℚ) : ℚ :=
  getTokenAgeHours td.priceData none now

/-- The age used by `calculatePositiveSignals` at clock reading `now`. -/
def ageForBonus (td : TokenData) (now : ℚ) : ℚ :=
  getTokenAgeHours td.priceData (some td.migrationTimestamp) now

/-- `checkTokenAge` with the age as an input. -/
def checkTokenAgeFromAge (ageHours : ℚ) : FilterCheckResult :=
  let e : ℤ × List RiskFlag :=
    if ageHours < 1/2 then (15, [.veryNewToken (jsRound (ageHours * 60))])
    else if ageHours < 1 then (10, [.newToken (jsRound (ageHours * 60))])
    else if ageHours < 6 then (5, [.recentlyLaunched ageHours])
    else (0, [])
  ⟨min e.1 15, e.2⟩

/-- `calculatePositiveSignals` with the age as an input. -/
def positiveSignalsFromAge (td : TokenData) (ageHours : ℚ) : BonusResult :=
  let buys := td.priceData.buys24h
  let sells := td.priceData.sells24h
  let totalTrades := buys + sells
  let buyFrac : ℚ := if totalTrades > 10 then buys / totalTrades else 1/2
  let e1 : ℤ × List Signal := if ageHours ≥ 24 then (5, [.age24h]) else (0, [])
  let e2 : ℤ × List Signal := if ageHours ≥ 72 then (5, [.age72h]) else (0, [])
  let e3 : ℤ × List Signal :=
    if numTruthy td.holderCount = true ∧ td.holderCount.getD 0 ≥ 500 then
      (5, [.strongHolderBase])
    else if numTruthy td.holderCount = true ∧ td.holderCount.getD 0 ≥ 200 then
      (3, [.goodHolderCount])
    else (0, [])
  let e4 : ℤ × List Signal :=
    if 2/5 ≤ buyFrac ∧ buyFrac ≤ 3/5 then (5, [.balancedTrading]) else (0, [])
  let e5 : ℤ × List Signal :=
    if td.priceData.marketCap > 0 then
      if td.priceData.liquidity / td.priceData.marketCap ≥ 1/10 then
        (5, [.healthyLiquidity])
      else (0, [])
    else (0, [])
  let e6 : ℤ × List Signal :=
    if strTruthy td.metadata.twitter = true ∧ strTruthy td.metadata.website = true then
      (3, [.hasSocials])
    else (0, [])
  let e7 : ℤ × List Signal :=
    match td.security with
    | some s =>
      if s.mintAuthorityRevoked = true ∧ s.freezeAuthorityRevoked = true ∧ s.lpLocked = true then
        (5, [.securityVerified])
      else (0, [])
    | none => (0, [])
  ⟨min (e1.1 + e2.1 + e3.1 + e4.1 + e5.1 + e6.1 + e7.1) 25,
   e1.2 ++ e2.2 ++ e3.2 ++ e4.2 ++ e5.2 ++ e6.2 ++ e7.2⟩

/-- `detectCompositeRisks` with the age as an input. -/
def compositeRisksFromAge (td : TokenData) (holderResult velocityResult : FilterCheckResult)
    (ageHours : ℚ) : CompositeRiskIndicators :=
  let buys := td.priceData.buys24h
  let sells := td.priceData.sells24h
  let totalTrades := buys + sells
  let sellFrac : ℚ := if totalTrades > 0 then sells / totalTrades else 0
  let buyFrac : ℚ := if totalTrades > 0 then buys / totalTrades else 0
  let tradesPerHolder : ℚ :=
    if numTruthy td.holderCount = true ∧ td.holderCount.getD 0 > 0 then
      td.priceData.trades24h / td.holderCount.getD 0
    else 0
  let rugInProgress :=
    holderResult.flags.any (fun f =>
      strIncludes (flagText f) "Very high concentration" ||
      strIncludes (flagText f) "Mega whale")
    && decide (sellFrac > 7/10) && decide (ageHours < 12)
  let pumpSetup :=
    decide (buyFrac > 17/20)
    && (td.holderCount.isNone || decide (td.holderCount.getD 0 < 100))
    && decide (ageHours < 6) && decide (td.priceData.trades24h > 100)
  let washTrading :=
    decide (tradesPerHolder > 10) && decide (velocityResult.penalty > 5)
  let coordinatedDump :=
    decide (sellFrac > 4/5) && decide (td.priceData.trades24h > 50) && decide (ageHours < 24)
  let insiderAccumulation :=
    decide ((match td.launchAnalysis with | some la => la.bundledBuys | none => 0) > 2)
    && decide ((match td.walletFunding with | some wf => wf.clusteredWallets | none => 0) ≥ 2)
    && holderResult.flags.any (fun f => strIncludes (flagText f) "whale")
  ⟨rugInProgress, pumpSetup, washTrading, coordinatedDump, insiderAccumulation⟩

/-- The composite indicators of the time-factored engine. -/
def compositeOfAges (cfg : FilterThresholds) (td : TokenData) (aComp : ℚ) :
    CompositeRiskIndicators :=
  compositeRisksFromAge td (checkHolderDistribution cfg td.holders td.holderCount)
    (checkTradeVelocity td.priceData td.holderCount) aComp

/-- The pre-clamp score of the time-factored engine. -/
def rawScoreAges (cfg : FilterThresholds) (td : TokenData) (aAge aComp aBonus : ℚ) : ℤ :=
  100
  - (checkWashTrading td.transactions).penalty
  - (checkHolderDistribution cfg td.holders td.holderCount).penalty
  - (checkDeveloperHoldings cfg td.holders td.metadata.creator td.devHoldings).penalty
  - (checkVolumeManipulation cfg td.transactions).penalty
  - (checkAirdropScheme td.transactions).penalty
  - (checkSocialSignals td.metadata).penalty
  - (checkTokenAgeFromAge aAge).penalty
  - (checkBuyPressure td.priceData).penalty
  - (checkLiquidityHealth td.priceData).penalty
  - (checkSecurity td.security).penalty
  - (checkSnipers td.launchAnalysis).penalty
  - (checkWalletFunding td.walletFunding).penalty
  - (checkTradeVelocity td.priceData td.holderCount).penalty
  - (checkCreatorHistory td.creatorHistory).penalty
  + (positiveSignalsFromAge td aBonus).bonus
  - compositePenaltyOf (compositeOfAges cfg td aComp)

/-- The flags of the time-factored engine. -/
def allFlagsAges (cfg : FilterThresholds) (td : TokenData) (aAge aComp : ℚ) : List RiskFlag :=
  (checkWashTrading td.transactions).flags ++
  (checkHolderDistribution cfg td.holders td.holderCount).flags ++
  (checkDeveloperHoldings cfg td.holders td.metadata.creator td.devHoldings).flags ++
  (checkVolumeManipulation cfg td.transactions).flags ++
  (checkAirdropScheme td.transactions).flags ++
  (checkSocialSignals td.metadata).flags ++
  (checkTokenAgeFromAge aAge).flags ++
  (checkBuyPressure td.priceData).flags ++
  (checkLiquidityHealth td.priceData).flags ++
  (checkSecurity td.security).flags ++
  (checkSnipers td.launchAnalysis).flags ++
  (checkWalletFunding td.walletFunding).flags ++
  (checkTradeVelocity td.priceData td.holderCount).flags ++
  (checkCreatorHistory td.creatorHistory).flags ++
  compositeFlagsOf (compositeOfAges cfg td aComp)

/-- The breakdown of the time-factored engine. -/
def breakdownOfAges (cfg : FilterThresholds) (td : TokenData) (aAge : ℚ) : AnalysisBreakdown :=
  { washTrading := mkEntry (checkWashTrading td.transactions) 20
    holders := mkEntry (checkHolderDistribution cfg td.holders td.holderCount) 25
    developer := mkEntry (checkDeveloperHoldings cfg td.holders td.metadata.creator td.devHoldings) 15
    volume := mkEntry (checkVolumeManipulation cfg td.transactions) 20
    airdrops := mkEntry (checkAirdropScheme td.transactions) 15
    social := mkEntry (checkSocialSignals td.metadata) 10
    tokenAge := mkEntry (checkTokenAgeFromAge aAge) 15
    buyPressure := mkEntry (checkBuyPressure td.priceData) 15
    liquidity := mkEntry (checkLiquidityHealth td.priceData) 20
    security := mkEntry (checkSecurity td.security) 25
    snipers := mkEntry (checkSnipers td.launchAnalysis) 20 }

/-- The engine with the three token ages as explicit inputs: this
definition does not mention the clock. -/
def analyzeTokenAges (cfg : FilterThresholds) (td : TokenData)
    (aAge aComp aBonus : ℚ) : AnalysisResult :=
  { passed := decide (clampScore (rawScoreAges cfg td aAge aComp aBonus) ≥ cfg.minScore)
    score := clampScore (rawScoreAges cfg td aAge aComp aBonus)
    flags := allFlagsAges cfg td aAge aComp
    breakdown := breakdownOfAges cfg td aAge
    dangerScore := calculateDangerScore (rawScoreAges cfg td aAge aComp aBonus)
      (allFlagsAges cfg td aAge aComp) (compositeOfAges cfg td aComp) td
    compositeRisks := compositeOfAges cfg td aComp
    positiveSignals := (positiveSignalsFromAge td aBonus).signals }

/-! ## The enrichment pipeline around the engine
(`src/services/token-processor.service.ts` and
`src/services/pumpportal-listener.service.ts` with
`sol-price.service.ts`). -/

/-- `holderCount = moralisHolderData?.totalHolders ?? onChainData?.holderCount ?? -1`
(nullish chain). -/
def fuseHolderCount (moralisTotalHolders onChainHolderCount : Option ℚ) : ℚ :=
  moralisTotalHolders.getD (onChainHolderCount.getD (-1))

/-- The pump.fun "defaults are SECURE" record the processor substitutes
when the security probe fails, times out or returns null
(`lpLockDuration: Infinity` is omitted: the engine never reads it). -/
def safeSecurityDefaults : TokenSecurity :=
  { mintAuthorityRevoked := true
    freezeAuthorityRevoked := true
    lpLocked := true
    lpLockPercentage := 100
    isRugpullRisk := false
    topHoldersAreContracts := false }

/-- `const security = securityCheck || { …defaults }` — an object is
always truthy, so only a null probe result falls through. -/
def fuseSecurity (probe : Option TokenSecurity) : TokenSecurity :=
  probe.getD safeSecurityDefaults

/-- The part of a processed `TokenAnalysis` relevant to the history store. -/
structure StoredToken where
  address : String
  analysis : AnalysisResult
  migrationTimestamp : ℚ
  analyzedAt : ℚ
deriving DecidableEq, Repr

/-- The store step of `processNewMigration`:
`processedTokens.unshift(tokenResult); if (processedTokens.length > 100) processedTokens.pop();`. -/
def insertProcessedToken (t : StoredToken) (history : List StoredToken) : List StoredToken :=
  let h := t :: history
  if h.length > 100 then h.dropLast else h

/-- The reachable states of the in-memory history: it starts empty and
every processed token is inserted by `insertProcessedToken`. -/
inductive ReachableHistory : List StoredToken → Prop where
  | empty : ReachableHistory []
  | insert (t : StoredToken) {s : List StoredToken} :
      ReachableHistory s → ReachableHistory (insertProcessedToken t s)

/-- `getCachedSolPrice` of `sol-price.service.ts`: the cached value if it
is non-null and younger than `CACHE_TTL_MS = 30_000`, else null. -/
def getCachedSolPrice (cachedPrice : Option ℚ) (cacheTimestamp now : ℚ) : Option ℚ :=
  if cachedPrice.isSome ∧ now - cacheTimestamp < 30000 then cachedPrice else none

/-- The fields of the PumpPortal frame read by the migration branch of
`handleMessage`. -/
structure PumpPortalMsg where
  signature : String
  mint : String
  name : Option String
  symbol : Option String
  uri : Option String
  pool : Option String
  marketCapSol : Option ℚ
  creator : Option String
deriving DecidableEq, Repr

/-- `MigrationEvent` as built by `handleMessage`. -/
structure MigrationEventRec where
  signature : String
  mint : String
  name : Option String
  symbol : Option String
  uri : Option String
  pool : Option String
  timestamp : ℚ
  marketCap : Option ℚ
  liquidity : Option ℚ
  creator : Option String
deriving DecidableEq, Repr

/-- The migration branch of `PumpPortalListener.handleMessage`:
`marketCap: message.marketCapSol ? message.marketCapSol * (getCachedSolPrice() || 0) : undefined`. -/
def handleMigrationMessage (msg : PumpPortalMsg) (cachedSolPrice : Option ℚ) (now : ℚ) :
    MigrationEventRec :=
  { signature := msg.signature
    mint := msg.mint
    name := msg.name
    symbol := msg.symbol
    uri := msg.uri
    pool := msg.pool
    timestamp := now
    marketCap :=
      if numTruthy msg.marketCapSol then
        some (msg.marketCapSol.getD 0 * jsNum cachedSolPrice 0)
      else none
    liquidity := none
    creator := msg.creator }

/-- The danger-boost procedure as WORDED BY claim C6 (for comparison with
the source's `dangerBoosted`): boosts 20, 15, 10, 10, 5 attached to
rugInProgress, pumpSetup, washTrading, coordinatedDump,
insiderAccumulation in that order, each addition clamped at 100. -/
def dangerBoostedClaimSix (s : ℤ) (cr : CompositeRiskIndicators) : ℤ :=
  let d0 := dangerBase s
  let d1 := if cr.rugInProgress then min 100 (d0 + 20) else d0
  let d2 := if cr.pumpSetup then min 100 (d1 + 15) else d1
  let d3 := if cr.washTrading then min 100 (d2 + 10) else d2
  let d4 := if cr.coordinatedDump then min 100 (d3 + 10) else d3
  if cr.insiderAccumulation then min 100 (d4 + 5) else d4

/-! ## Concrete records used by the counterexamples and witnesses -/

/-- Metadata with every string empty and no socials. -/
def emptyMetadata : TokenMetadata :=
  { name := "", symbol := "", description := "", creator := "", image := ""
    decimals := 6, supply := "1000000000", twitter := none, telegram := none
    website := none }

/-- Price data with every number 0 and every optional field absent. -/
def basePriceData : PriceData :=
  { price := 0, volume24h := 0, marketCap := 0, liquidity := 0, trades24h := 0
    priceChange24h := 0, buys24h := 0, sells24h := 0
    buys1h := none, sells1h := none, buysH1 := none, sellsH1 := none
    buys5m := none, sells5m := none, priceChange1h := none, priceChangeH1 := none
    priceChange5m := none, pairCreatedAt := none }

/-- A minimal fused record: no holders, no transactions, unknown holder
count, the processor's safe security defaults, nothing else. -/
def baseTokenData : TokenData :=
  { address := "mint", metadata := emptyMetadata, priceData := basePriceData
    holders := [], transactions := [], devHoldings := 0, migrationTimestamp := 0
    holderCount := none, security := some safeSecurityDefaults
    launchAnalysis := none, walletFunding := none, creatorHistory := none }

/-- `baseTokenData` with a pair created at epoch millisecond 1 (so all
three token ages move with the clock). -/
def pairTokenData : TokenData :=
  { baseTokenData with priceData := { basePriceData with pairCreatedAt := some 1 } }

/-- `baseTokenData` with five wallets clustered on one funding source. -/
def clusteredTokenData : TokenData :=
  { baseTokenData with
    walletFunding := some { clusteredWallets := 5, freshWalletBuyers := 0
                            suspiciousFundingPattern := false } }

/-- An analysis value used to populate concrete stored tokens. -/
def sampleAnalysis : AnalysisResult := analyzeToken defaultThresholds baseTokenData 0

/-- Two processed records for the same mint address. -/
def storedFirst : StoredToken := ⟨"MINTabc", sampleAnalysis, 0, 1⟩

/-- A re-processed record for the same mint address as `storedFirst`. -/
def storedSecond : StoredToken := ⟨"MINTabc", sampleAnalysis, 0, 2⟩

/-- A migration frame carrying `marketCapSol = 5`. -/
def migrationMsg : PumpPortalMsg :=
  { signature := "sig", mint := "MINTxyz", name := none, symbol := none
    uri := none, pool := none, marketCapSol := some 5, creator := none }

/-- Composite indicators with only `pumpSetup` raised. -/
def crPumpOnly : CompositeRiskIndicators :=
  { rugInProgress := false, pumpSetup := true, washTrading := false
    coordinatedDump := false, insiderAccumulation := false }

/-- The flags recorded in the breakdown of an analysis result (union of
its eleven entries). -/
def breakdownFlags (a : AnalysisResult) : List RiskFlag :=
  a.breakdown.washTrading.flags ++ a.breakdown.holders.flags ++
  a.breakdown.developer.flags ++ a.breakdown.volume.flags ++
  a.breakdown.airdrops.flags ++ a.breakdown.social.flags ++
  a.breakdown.tokenAge.flags ++ a.breakdown.buyPressure.flags ++
  a.breakdown.liquidity.flags ++ a.breakdown.security.flags ++
  a.breakdown.snipers.flags

/-! ## Helper lemmas -/

/-- The boosted danger value stays within `[0, 100]`. -/
lemma dangerBoosted_bounds (s : ℤ) (cr : CompositeRiskIndicators) :
    0 ≤ dangerBoosted s cr ∧ dangerBoosted s cr ≤ 100 := by
  simp only [dangerBoosted, dangerBase, clampScore]
  split_ifs <;> omega

/-- The boosted danger value plus the clamped score is at most 160. -/
lemma dangerBoosted_add_clamp_le (s : ℤ) (cr : CompositeRiskIndicators) :
    dangerBoosted s cr + clampScore s ≤ 160 := by
  simp only [dangerBoosted, dangerBase, clampScore]
  split_ifs <;> omega
lemma secFlag_not_washWallet (txs : List Transaction) (w : String) :
    RiskFlag.securityDataUnavailable ∉ (washWalletEntry txs w).2 := by
  intro h
  unfold washWalletEntry at h
  dsimp only at h
  split_ifs at h <;> simp_all

lemma secFlag_not_wash (txs : List Transaction) :
    RiskFlag.securityDataUnavailable ∉ (checkWashTrading txs).flags := by
  unfold checkWashTrading
  split
  · simp
  · intro h
    simp only [List.mem_flatten, List.mem_map] at h
    obtain ⟨l, ⟨e, ⟨w, hw, rfl⟩, rfl⟩, hfl⟩ := h
    exact secFlag_not_washWallet txs w hfl

lemma secFlag_not_holder (cfg : FilterThresholds) (holders : List Holder) (hc : Option ℚ) :
    RiskFlag.securityDataUnavailable ∉ (checkHolderDistribution cfg holders hc).flags := by
  intro h
  unfold checkHolderDistribution at h
  dsimp only at h
  split_ifs at h <;> simp_all

lemma secFlag_not_dev (cfg : FilterThresholds) (holders : List Holder) (w : String) (d : ℚ) :
    RiskFlag.securityDataUnavailable ∉ (checkDeveloperHoldings cfg holders w d).flags := by
  intro h
  unfold checkDeveloperHoldings at h
  dsimp only at h
  split_ifs at h <;> solve
    | simp_all
    | (split at h <;> ((try split_ifs at h) <;> simp_all))

lemma secFlag_not_volume (cfg : FilterThresholds) (txs : List Transaction) :
    RiskFlag.securityDataUnavailable ∉ (checkVolumeManipulation cfg txs).flags := by
  intro h
  unfold checkVolumeManipulation at h
  dsimp only at h
  split_ifs at h <;> simp_all

lemma secFlag_not_airdrop (txs : List Transaction) :
    RiskFlag.securityDataUnavailable ∉ (checkAirdropScheme txs).flags := by
  intro h
  unfold checkAirdropScheme at h
  dsimp only at h
  split_ifs at h <;> solve
    | simp_all
    | (split at h <;> ((try split_ifs at h) <;> simp_all))

lemma secFlag_not_social (m : TokenMetadata) :
    RiskFlag.securityDataUnavailable ∉ (checkSocialSignals m).flags := by
  intro h
  unfold checkSocialSignals at h
  dsimp only at h
  split_ifs at h <;> simp_all

lemma secFlag_not_age (pd : PriceData) (mt now : ℚ) :
    RiskFlag.securityDataUnavailable ∉ (checkTokenAge pd mt now).flags := by
  intro h
  unfold checkTokenAge at h
  dsimp only at h
  split_ifs at h <;> simp_all

lemma secFlag_not_pressure (pd : PriceData) :
    RiskFlag.securityDataUnavailable ∉ (checkBuyPressure pd).flags := by
  intro h
  unfold checkBuyPressure at h
  dsimp only at h
  split_ifs at h <;> simp_all

lemma secFlag_not_liquidity (pd : PriceData) :
    RiskFlag.securityDataUnavailable ∉ (checkLiquidityHealth pd).flags := by
  intro h
  unfold checkLiquidityHealth at h
  dsimp only at h
  split_ifs at h <;> simp_all

lemma secFlag_not_security_some (s : TokenSecurity) :
    RiskFlag.securityDataUnavailable ∉ (checkSecurity (some s)).flags := by
  intro h
  unfold checkSecurity at h
  dsimp only at h
  split_ifs at h <;> simp_all

lemma secFlag_not_snipers (la : Option LaunchAnalysis) :
    RiskFlag.securityDataUnavailable ∉ (checkSnipers la).flags := by
  intro h
  unfold checkSnipers at h
  rcases la with _ | la <;> dsimp only at h
  · simp_all
  · split_ifs at h <;> simp_all

lemma secFlag_not_funding (wf : Option WalletFundingAnalysis) :
    RiskFlag.securityDataUnavailable ∉ (checkWalletFunding wf).flags := by
  intro h
  unfold checkWalletFunding at h
  rcases wf with _ | wf <;> dsimp only at h
  · simp_all
  · split_ifs at h <;> simp_all

lemma secFlag_not_velocity (pd : PriceData) (hc : Option ℚ) :
    RiskFlag.securityDataUnavailable ∉ (checkTradeVelocity pd hc).flags := by
  intro h
  unfold checkTradeVelocity at h
  dsimp only at h
  split_ifs at h <;> simp_all

lemma secFlag_not_creator (ch : Option CreatorHistory) :
    RiskFlag.securityDataUnavailable ∉ (checkCreatorHistory ch).flags := by
  intro h
  unfold checkCreatorHistory at h
  rcases ch with _ | ch <;> dsimp only at h
  · simp_all
  · split_ifs at h <;> simp_all

lemma secFlag_not_composite (cr : CompositeRiskIndicators) :
    RiskFlag.securityDataUnavailable ∉ compositeFlagsOf cr := by
  intro h
  unfold compositeFlagsOf at h
  split_ifs at h <;> simp_all

/-- With security data present, no check of the engine can emit the
"Security data unavailable" flag. -/
lemma secFlag_not_allFlags (cfg : FilterThresholds) (td : TokenData) (now : ℚ)
    (s : TokenSecurity) (hsec : td.security = some s) :
    RiskFlag.securityDataUnavailable ∉ allFlags cfg td now := by
  intro h
  unfold allFlags at h
  simp only [List.mem_append] at h
  rcases h with (((((((((((((h | h) | h) | h) | h) | h) | h) | h) | h) | h) | h) | h) | h) | h) | h
  · exact secFlag_not_wash _ h
  · exact secFlag_not_holder _ _ _ h
  · exact secFlag_not_dev _ _ _ _ h
  · exact secFlag_not_volume _ _ h
  · exact secFlag_not_airdrop _ h
  · exact secFlag_not_social _ h
  · exact secFlag_not_age _ _ _ h
  · exact secFlag_not_pressure _ h
  · exact secFlag_not_liquidity _ h
  · rw [hsec] at h; exact secFlag_not_security_some _ h
  · exact secFlag_not_snipers _ h
  · exact secFlag_not_funding _ h
  · exact secFlag_not_velocity _ _ h
  · exact secFlag_not_creator _ h
  · exact secFlag_not_composite _ h
/-- Claim C1 (code behaviour at the failing input).  The claim says the
`holderCount = -1` sentinel must contribute no holder-count penalty and no
"Low holders" / "Moderate holders" flag.  The code disagrees: the
processor fuses an unknown holder count to `-1`, and
`checkHolderDistribution` keeps `-1` (it is JS-truthy in
`actualHolderCount || holders.length`) and fires `-1 < minHolders`,
producing penalty 15 and the flag "Low holders: -1" even on an empty
holder list. -/
theorem holder_sentinel_triggers_low_holders :
    fuseHolderCount none none = -1 ∧
    checkHolderDistribution defaultThresholds [] (some (-1)) =
      { penalty := 15, flags := [RiskFlag.lowHolders (-1)] } := by
  constructor
  · rfl
  · decide

/-- Claim C2.  For every analysis result: the score lies in `[0, 100]`
(it is an integer by construction — the score type is `ℤ` because every
penalty and bonus increment of the source is an integer literal), the
danger score overall lies in `[0, 100]`, and `passed` holds exactly when
the clamped score reaches the configured `minScore`. -/
theorem score_and_danger_bounds (cfg : FilterThresholds) (td : TokenData) (now : ℚ) :
    0 ≤ (analyzeToken cfg td now).score ∧ (analyzeToken cfg td now).score ≤ 100 ∧
    0 ≤ (analyzeToken cfg td now).dangerScore.overall ∧
    (analyzeToken cfg td now).dangerScore.overall ≤ 100 ∧
    ((analyzeToken cfg td now).passed = true ↔
      cfg.minScore ≤ (analyzeToken cfg td now).score) := by
  have hd := dangerBoosted_bounds (rawScore cfg td now) (compositeOf cfg td now)
  simp only [analyzeToken, calculateDangerScore]
  refine ⟨?_, ?_, hd.1, hd.2, ?_⟩
  · simp only [clampScore]; omega
  · simp only [clampScore]; omega
  · simp [ge_iff_le, decide_eq_true_iff]

/-- Claim C3 (counterexample).  The claim says two invocations of
`analyzeToken` on the same record at possibly different times return
equal results.  They do not: the engine reads `Date.now()`, and on a
record whose pair was created at epoch millisecond 1 the results at
`now = 1` (score 62: "very new token" penalty) and at `now` 72 hours
later (score 87: no age penalty, age bonuses) differ. -/
theorem scoring_differs_across_time :
    analyzeToken defaultThresholds pairTokenData 1 ≠
      analyzeToken defaultThresholds pairTokenData 259200001 := by decide

/-- Claim C3 (amended).  `analyzeToken` is deterministic given the
record, the configuration AND the clock reading: its entire time
dependence factors through the three token-age values (`checkTokenAge`,
`detectCompositeRisks`, `calculatePositiveSignals`), so the result equals
the clock-free engine `analyzeTokenAges` applied to those ages. -/
theorem analyzeToken_factors_through_ages (cfg : FilterThresholds) (td : TokenData) (now : ℚ) :
    analyzeToken cfg td now =
      analyzeTokenAges cfg td (ageForTokenAge td now) (ageForComposite td now)
        (ageForBonus td now) := rfl

/-- Claim C7.  For every analysis result,
`dangerScore.overall + score ≤ 160`: the danger is at most the inverse of
the clamped score plus the maximal composite boost sum 60. -/
theorem danger_plus_score_le (cfg : FilterThresholds) (td : TokenData) (now : ℚ) :
    (analyzeToken cfg td now).dangerScore.overall + (analyzeToken cfg td now).score ≤ 160 := by
  simpa only [analyzeToken, calculateDangerScore] using
    dangerBoosted_add_clamp_le (rawScore cfg td now) (compositeOf cfg td now)
lemma mem_compositeFlagsOf {f : RiskFlag} {cr : CompositeRiskIndicators}
    (h : f ∈ compositeFlagsOf cr) : f ∈ compositeRiskFlagList := by
  unfold compositeFlagsOf at h
  unfold compositeRiskFlagList
  split_ifs at h <;> simp_all <;> tauto

/-- Claim C4 (counterexample).  The claim says every top-level flag
appears in some breakdown entry or is a composite-risk flag.  The flag
"Coordinated buying: 5 wallets from same source", produced by
`checkWalletFunding`, is in the top-level flags but the breakdown omits
the walletFunding (and tradeVelocity, creatorHistory) checks, and it is
not a composite-risk flag. -/
theorem flag_outside_breakdown_and_composites :
    RiskFlag.coordinatedBuying 5 ∈ (analyzeToken defaultThresholds clusteredTokenData 1).flags ∧
    RiskFlag.coordinatedBuying 5 ∉ breakdownFlags (analyzeToken defaultThresholds clusteredTokenData 1) ∧
    RiskFlag.coordinatedBuying 5 ∉ compositeRiskFlagList := by decide

/-- Claim C4 (amended).  Every top-level flag appears in some breakdown
entry, or is one of the five composite-risk flags, or comes from one of
the three checks the breakdown omits (walletFunding, tradeVelocity,
creatorHistory). -/
theorem flags_covered_by_breakdown_composites_and_extra_checks
    (cfg : FilterThresholds) (td : TokenData) (now : ℚ) (f : RiskFlag)
    (hf : f ∈ (analyzeToken cfg td now).flags) :
    f ∈ breakdownFlags (analyzeToken cfg td now) ∨ f ∈ compositeRiskFlagList ∨
    f ∈ (checkWalletFunding td.walletFunding).flags ∨
    f ∈ (checkTradeVelocity td.priceData td.holderCount).flags ∨
    f ∈ (checkCreatorHistory td.creatorHistory).flags := by
  have hb : breakdownFlags (analyzeToken cfg td now) =
      (checkWashTrading td.transactions).flags ++
      (checkHolderDistribution cfg td.holders td.holderCount).flags ++
      (checkDeveloperHoldings cfg td.holders td.metadata.creator td.devHoldings).flags ++
      (checkVolumeManipulation cfg td.transactions).flags ++
      (checkAirdropScheme td.transactions).flags ++
      (checkSocialSignals td.metadata).flags ++
      (checkTokenAge td.priceData td.migrationTimestamp now).flags ++
      (checkBuyPressure td.priceData).flags ++
      (checkLiquidityHealth td.priceData).flags ++
      (checkSecurity td.security).flags ++
      (checkSnipers td.launchAnalysis).flags := rfl
  have hf' : f ∈ allFlags cfg td now := hf
  unfold allFlags at hf'
  rw [hb]
  simp only [List.mem_append] at hf' ⊢
  rcases hf' with (((((((((((((h | h) | h) | h) | h) | h) | h) | h) | h) | h) | h) | h) | h) | h) | h
  · exact Or.inl (Or.inl (Or.inl (Or.inl (Or.inl (Or.inl (Or.inl (Or.inl (Or.inl (Or.inl (Or.inl (h)))))))))))
  · exact Or.inl (Or.inl (Or.inl (Or.inl (Or.inl (Or.inl (Or.inl (Or.inl (Or.inl (Or.inl (Or.inr h))))))))))
  · exact Or.inl (Or.inl (Or.inl (Or.inl (Or.inl (Or.inl (Or.inl (Or.inl (Or.inl (Or.inr h)))))))))
  · exact Or.inl (Or.inl (Or.inl (Or.inl (Or.inl (Or.inl (Or.inl (Or.inl (Or.inr h))))))))
  · exact Or.inl (Or.inl (Or.inl (Or.inl (Or.inl (Or.inl (Or.inl (Or.inr h)))))))
  · exact Or.inl (Or.inl (Or.inl (Or.inl (Or.inl (Or.inl (Or.inr h))))))
  · exact Or.inl (Or.inl (Or.inl (Or.inl (Or.inl (Or.inr h)))))
  · exact Or.inl (Or.inl (Or.inl (Or.inl (Or.inr h))))
  · exact Or.inl (Or.inl (Or.inl (Or.inr h)))
  · exact Or.inl (Or.inl (Or.inr h))
  · exact Or.inl (Or.inr h)
  · exact Or.inr (Or.inr (Or.inl h))
  · exact Or.inr (Or.inr (Or.inr (Or.inl h)))
  · exact Or.inr (Or.inr (Or.inr (Or.inr h)))
  · exact Or.inr (Or.inl (mem_compositeFlagsOf h))

/-- Witness for claim C4's amended theorem at a concrete record with
five clustered wallets. -/
theorem flags_covered_witness :
    RiskFlag.coordinatedBuying 5 ∈ (analyzeToken defaultThresholds clusteredTokenData 1).flags ∧
    (RiskFlag.coordinatedBuying 5 ∈ breakdownFlags (analyzeToken defaultThresholds clusteredTokenData 1) ∨
     RiskFlag.coordinatedBuying 5 ∈ compositeRiskFlagList ∨
     RiskFlag.coordinatedBuying 5 ∈ (checkWalletFunding clusteredTokenData.walletFunding).flags ∨
     RiskFlag.coordinatedBuying 5 ∈ (checkTradeVelocity clusteredTokenData.priceData clusteredTokenData.holderCount).flags ∨
     RiskFlag.coordinatedBuying 5 ∈ (checkCreatorHistory clusteredTokenData.creatorHistory).flags) :=
  ⟨by decide,
   flags_covered_by_breakdown_composites_and_extra_checks defaultThresholds clusteredTokenData 1
     (RiskFlag.coordinatedBuying 5) (by decide)⟩

/-- Claim C5 (counterexample).  The claim says each mint address appears
at most once in the history because re-processing removes the older entry
before inserting.  The store step of `processNewMigration` only does
`unshift` + conditional `pop`: re-processing the mint "MINTabc" yields a
reachable history holding two entries with that address. -/
theorem duplicate_mint_in_reachable_history :
    ReachableHistory (insertProcessedToken storedSecond (insertProcessedToken storedFirst [])) ∧
    ((insertProcessedToken storedSecond (insertProcessedToken storedFirst [])).filter
      (fun t => t.address == "MINTabc")).length = 2 := by
  refine ⟨.insert _ (.insert _ .empty), ?_⟩
  decide

/-- Claim C5 (amended).  The store guarantees only the bounded-FIFO
discipline: every reachable history state has length at most 100 (each
processed token is prepended and the oldest entry is evicted past 100);
a mint address MAY appear more than once after re-processing. -/
theorem history_bounded (s : List StoredToken) (h : ReachableHistory s) : s.length ≤ 100 := by
  induction h with
  | empty => simp
  | insert t hs ih =>
    unfold insertProcessedToken
    dsimp only
    split <;> rename_i hlen
    · rw [List.length_dropLast, List.length_cons]
      omega
    · rw [List.length_cons] at hlen
      rw [List.length_cons]
      omega

/-- Witness for claim C5's amended theorem at a concrete one-insert
history. -/
theorem history_bounded_witness : (insertProcessedToken storedFirst []).length ≤ 100 :=
  history_bounded _ (.insert _ .empty)

/-- Claim C6 (counterexample).  The claim attaches boosts 20/15/10/10/5
to rugInProgress, pumpSetup, washTrading, coordinatedDump,
insiderAccumulation in that order.  The code instead boosts rug +20,
dump +15, insider +10, pump +10, wash +5: with only `pumpSetup` raised
and a base danger of 0, the code yields overall 10 while the claim's
procedure yields 15. -/
theorem danger_boost_differs_from_claim :
    (calculateDangerScore 100 [] crPumpOnly baseTokenData).overall = 10 ∧
    dangerBoostedClaimSix 100 crPumpOnly = 15 ∧
    (calculateDangerScore 100 [] crPumpOnly baseTokenData).overall ≠
      dangerBoostedClaimSix 100 crPumpOnly := by decide

/-- Claim C6 (amended).  The danger overall equals
`min 100 (100 - clamp(score) + 20·rugInProgress + 15·coordinatedDump +
10·insiderAccumulation + 10·pumpSetup + 5·washTrading)` — the code's
boost amounts, where the per-step clamping collapses to one final clamp
because every boost is nonnegative. -/
theorem danger_boost_closed_form (s : ℤ) (flags : List RiskFlag)
    (cr : CompositeRiskIndicators) (td : TokenData) :
    (calculateDangerScore s flags cr td).overall =
      min 100 (dangerBase s +
        (if cr.rugInProgress then 20 else 0) + (if cr.coordinatedDump then 15 else 0) +
        (if cr.insiderAccumulation then 10 else 0) + (if cr.pumpSetup then 10 else 0) +
        (if cr.washTrading then 5 else 0)) := by
  simp only [calculateDangerScore, dangerBoosted, dangerBase, clampScore]
  split_ifs <;> omega

/-- Claim C8 (counterexample).  The claim says a record with at most 10
total 24h trades never receives the "Balanced trading activity" bonus.
With zero buys and sells the source defaults the buy ratio to 0.5, which
lies inside the balanced band, so the bonus IS granted. -/
theorem balanced_bonus_with_no_trades :
    Signal.balancedTrading ∈ (calculatePositiveSignals baseTokenData 1).signals ∧
    baseTokenData.priceData.buys24h + baseTokenData.priceData.sells24h ≤ 10 := by decide

/-- Claim C8 (amended).  The "Balanced trading activity" bonus is
granted iff the 24h buy ratio lies in `[0.40, 0.60]` when
`buys24h + sells24h > 10`, and is ALWAYS granted when
`buys24h + sells24h ≤ 10` (the ratio then defaults to 0.5). -/
theorem balanced_bonus_iff (td : TokenData) (now : ℚ) :
    Signal.balancedTrading ∈ (calculatePositiveSignals td now).signals ↔
      (td.priceData.buys24h + td.priceData.sells24h ≤ 10 ∨
        (2/5 ≤ td.priceData.buys24h / (td.priceData.buys24h + td.priceData.sells24h) ∧
         td.priceData.buys24h / (td.priceData.buys24h + td.priceData.sells24h) ≤ 3/5)) := by
  unfold calculatePositiveSignals
  dsimp only
  simp only [List.mem_append]
  by_cases htot : td.priceData.buys24h + td.priceData.sells24h > 10
  · rw [if_pos htot]
    constructor
    · intro hmem
      rcases hmem with (((((h|h)|h)|h)|h)|h)|h
      · revert h; split_ifs <;> simp
      · revert h; split_ifs <;> simp
      · revert h; split_ifs <;> simp
      · revert h
        split_ifs with hc
        · exact fun _ => Or.inr hc
        · simp
      · revert h; split_ifs <;> simp
      · revert h; split_ifs <;> simp
      · revert h
        cases hsec : td.security
        · simp
        · dsimp only
          split_ifs <;> simp
    · intro hrhs
      have hband : 2/5 ≤ td.priceData.buys24h / (td.priceData.buys24h + td.priceData.sells24h) ∧
          td.priceData.buys24h / (td.priceData.buys24h + td.priceData.sells24h) ≤ 3/5 := by
        rcases hrhs with h10 | hband
        · linarith
        · exact hband
      refine Or.inl (Or.inl (Or.inl (Or.inr ?_)))
      rw [if_pos hband]
      simp
  · rw [if_neg htot]
    constructor
    · intro _
      exact Or.inl (le_of_not_lt htot)
    · intro _
      refine Or.inl (Or.inl (Or.inl (Or.inr ?_)))
      rw [if_pos (show (2:ℚ)/5 ≤ 1/2 ∧ (1:ℚ)/2 ≤ 3/5 by norm_num)]
      simp

/-- Claim C9 (counterexample).  The claim says that when the SOL price
oracle returns null the emitted migration event's `marketCap` is left
unset.  With `marketCapSol = 5` and a null cached price the listener
computes `5 * (null || 0) = 0` and sets `marketCap` to 0, not
`undefined`. -/
theorem null_price_gives_zero_marketcap :
    (handleMigrationMessage migrationMsg none 1000).marketCap = some 0 := by decide

/-- Claim C9 (amended).  When the oracle returns null, the migration
event's `marketCap` is 0 whenever the frame carries a truthy
`marketCapSol`, and is left unset only when `marketCapSol` is absent or
zero. -/
theorem null_price_marketcap_behavior (msg : PumpPortalMsg) (now : ℚ) :
    (handleMigrationMessage msg none now).marketCap =
      (if numTruthy msg.marketCapSol then some 0 else none) := by
  have h : (handleMigrationMessage msg none now).marketCap =
      (if numTruthy msg.marketCapSol then some (msg.marketCapSol.getD 0 * jsNum none 0) else none) := rfl
  rw [h]
  split_ifs <;> simp [jsNum]
/-- Claim C10.  When the security probe fails, times out or returns
null, `processNewMigration` substitutes the fully-safe defaults
(mint and freeze revoked, LP locked at 100%); consequently the Security
check contributes zero penalty, the "Security data unavailable" flag
never appears in a record produced by `processNewMigration` (which always
passes a present security object), and the "Security fully verified"
bonus is granted. -/
theorem security_fallback_behavior :
    fuseSecurity none = safeSecurityDefaults ∧
    checkSecurity (some safeSecurityDefaults) = { penalty := 0, flags := [] } ∧
    (∀ (cfg : FilterThresholds) (td : TokenData) (now : ℚ) (s : TokenSecurity),
      td.security = some s →
      RiskFlag.securityDataUnavailable ∉ (analyzeToken cfg td now).flags) ∧
    (∀ (cfg : FilterThresholds) (td : TokenData) (now : ℚ),
      td.security = some safeSecurityDefaults →
      (analyzeToken cfg td now).breakdown.security.penalty = 0 ∧
      Signal.securityVerified ∈ (analyzeToken cfg td now).positiveSignals) := by
  refine ⟨rfl, by decide, ?_, ?_⟩
  · intro cfg td now s hs
    exact secFlag_not_allFlags cfg td now s hs
  · intro cfg td now hs
    constructor
    · show (mkEntry (checkSecurity td.security) 25).penalty = 0
      rw [hs]
      decide
    · show Signal.securityVerified ∈ (calculatePositiveSignals td now).signals
      unfold calculatePositiveSignals
      dsimp only
      simp only [List.mem_append]
      refine Or.inr ?_
      rw [hs]
      decide

/-- Witness for claim C10 at a concrete record carrying the safe
security defaults. -/
theorem security_fallback_witness :
    RiskFlag.securityDataUnavailable ∉ (analyzeToken defaultThresholds baseTokenData 1).flags ∧
    (analyzeToken defaultThresholds baseTokenData 1).breakdown.security.penalty = 0 ∧
    Signal.securityVerified ∈ (analyzeToken defaultThresholds baseTokenData 1).positiveSignals :=
  ⟨security_fallback_behavior.2.2.1 defaultThresholds baseTokenData 1 safeSecurityDefaults rfl,
   (security_fallback_behavior.2.2.2 defaultThresholds baseTokenData 1 rfl).1,
   (security_fallback_behavior.2.2.2 defaultThresholds baseTokenData 1 rfl).2⟩
